import Mathlib

/-!
Shallow embedding of the AVRModPlay `mod8` playback core (hosted build:
the non-`ARDUINO_ARCH_AVR` code paths with the default configuration:
`MOD8_PARAM_MIXING_FREQ = 31250`, downsampling factor 1, volume
attenuation 0, `MOD8_OPTION_AMIGA_PERIODS = false`,
`MOD8_OPTION_STOP_ON_F00_CMD = false`).

Pointers into the caller's song buffer are modelled as natural-number
byte offsets; the song data itself is a function `Nat → Nat` giving the
byte at each offset.  Fixed-point X.16 phase values are natural numbers;
`int8`/`int16` quantities are modelled as `Int`.
-/

namespace Mod8

/-! ### Config.hpp (hosted defaults) -/

def MIXING_FREQ : Nat := 16000000 / 256 / 2
def VOLUME_ATTENNUATION_LOG2 : Nat := 0
def DOWNSAMPLING_FACTOR : Nat := 1
def AMIGA_PAULA_CLOCK_FREQ : Nat := 3546894
def AMIGA_VBLANK_INT_FREQ : Nat := 50
def SAMPLING_FREQ : Nat := MIXING_FREQ / DOWNSAMPLING_FACTOR
def SAMPLES_PER_AMIGA_VBLANK : Nat := SAMPLING_FREQ / AMIGA_VBLANK_INT_FREQ

/-! ### Format.hpp constants -/

def NUM_ORDERS : Nat := 128
def NUM_CHANNELS : Nat := 4
def NUM_FINETUNES : Nat := 16
def NUM_ROWS : Nat := 64
def NUM_SAMPLES : Nat := 31
def MAX_VOLUME : Int := 64
def MAX_FINETUNE : Nat := 15
def MAX_TICKS_PER_ROW : Nat := 31
def MIN_PERIOD : Nat := 28 * DOWNSAMPLING_FACTOR
def MAX_PERIOD : Nat := 3424
def INITIAL_BPM : Nat := 125
def INITIAL_SPEED : Nat := 6
def ARPEGGIO_PERIOD : Nat := 3

/-! ### Math.hpp -/

def make_byte (hi_nibble lo_nibble : Nat) : Nat :=
  ((hi_nibble &&& 0xF) <<< 4) ||| (lo_nibble &&& 0xF)

def hi_nibble (value : Nat) : Nat := (value &&& 0xF0) >>> 4

def lo_nibble (value : Nat) : Nat := value &&& 0xF

def make_word (hi_byte lo_byte : Nat) : Nat := (hi_byte <<< 8) ||| lo_byte

def hi_byte (value : Nat) : Nat := (value >>> 8) % 256

def lo_byte (value : Nat) : Nat := value &&& 0xff

/-- `u8_to_s8`: reinterpret an unsigned byte as a signed `int8`. -/
def u8_to_s8 (value : Nat) : Int :=
  if value % 256 < 128 then (value % 256 : Int) else (value % 256 : Int) - 256

/-- `make_fixp<T, FRACTIONAL_BITS>`. -/
def make_fixp (fractional_bits : Nat) (integer fractional : Nat) : Nat :=
  (integer <<< fractional_bits) ||| fractional

/-- `make_fixp_fraction<T, FRACTIONAL_BITS>`. -/
def make_fixp_fraction (fractional_bits : Nat) (numerator denominator : Nat) : Nat :=
  make_fixp fractional_bits (numerator / denominator)
    ((numerator % denominator) * (1 <<< fractional_bits) / denominator)

/-- `math::clamp`. -/
def clamp (value min max : Nat) : Nat :=
  if value < min then min else (if value > max then max else value)

/-- `math::maximum`. -/
def maximum (value1 value2 : Nat) : Nat := if value1 > value2 then value1 else value2

/-! ### Sampler.hpp: speed table -/

/-- Fixed-point X.14 ratio `AMIGA_PAULA_CLOCK_FREQ / SAMPLING_FREQ`. -/
def PLAYER_SPEED_CONSTANT : Nat :=
  make_fixp_fraction 14 AMIGA_PAULA_CLOCK_FREQ SAMPLING_FREQ

/-- `calc_speed`: multiply the base speed by the finetune correction factor. -/
def calc_speed (intgr fract : Nat) : Nat :=
  PLAYER_SPEED_CONSTANT * make_fixp 14 intgr fract / 16384

/-- The 16-entry finetune speed table (fixed-point 18.14). -/
def SPEED_TABLE (finetune : Nat) : Nat :=
  [calc_speed 1 0, calc_speed 1 118, calc_speed 1 238, calc_speed 1 358,
   calc_speed 1 480, calc_speed 1 602, calc_speed 1 725, calc_speed 1 849,
   calc_speed 0 15464, calc_speed 0 15576, calc_speed 0 15689, calc_speed 0 15803,
   calc_speed 0 15917, calc_speed 0 16032, calc_speed 0 16149,
   calc_speed 0 16266].getD finetune 0

def MAX_SPEED_INDEX : Nat := 7
def MIN_SPEED_INDEX : Nat := 8

/-- `MIN_LOOP_LENGTH`: shorter loops are muted. -/
def MIN_LOOP_LENGTH : Nat := SPEED_TABLE MAX_SPEED_INDEX / MIN_PERIOD / 16384 + 1

def MAX_SPEED : Nat := SPEED_TABLE MAX_SPEED_INDEX

/-- The phase increment computed by `Sampler::internal_set_period` for an
in-range period: `speed = static_cast<uint16_t>(SPEED_TABLE[f] / period)`
followed by `speed << 2`. -/
def phase_increment (finetune period : Nat) : Nat :=
  (SPEED_TABLE finetune / period % 65536) <<< 2

def MAX_INCREMENT : Nat := (SPEED_TABLE MAX_SPEED_INDEX / MIN_PERIOD) <<< 2

def MIN_INCREMENT : Nat := (SPEED_TABLE MIN_SPEED_INDEX / MAX_PERIOD) <<< 2

/-! ### Sampler.hpp: `struct Sample` and `class Sampler` (hosted path)

Sample pointers are byte offsets into the song buffer.  The sampler's
`intptr_t` fields are natural numbers: all reachable values are
non-negative, and the one subtraction in `fetch_sample`
(`m_phase -= m_end - m_loop_begin`, i.e. `m_phase + m_loop_begin - m_end`)
is performed under the branch condition `m_phase ≥ m_end`, where natural
truncated subtraction agrees with signed arithmetic. -/

structure Sample where
  begin_ : Nat
  end_ : Nat
  loop_begin : Nat
  loop_end : Nat
  finetune : Nat
  volume : Int
deriving DecidableEq, Repr

structure Sampler where
  m_active : Bool
  m_sampling : Bool
  m_finetune : Nat
  m_volume : Int
  m_cached_period : Nat
  m_cached_finetune : Nat
  m_loopless : Bool
  m_sample_base : Nat
  m_end : Nat
  m_loop_begin : Nat
  m_loop_end : Nat
  m_phase : Nat
  m_phase_increment : Nat
  m_sample : Int
deriving DecidableEq, Repr

/-- `Sampler::init`: initializes the smallest possible subset of fields. -/
def Sampler.init (s : Sampler) : Sampler :=
  { s with m_active := false, m_sampling := false, m_sample := 0,
           m_cached_period := 0, m_cached_finetune := 0 }

/-- `Sampler::reset`.  The busy-wait on `m_sampling` synchronizes with the
interrupt and has no effect in this sequential model. -/
def Sampler.reset (s : Sampler) : Sampler :=
  Sampler.init { s with m_active := false }

/-- `Sampler::set_volume`: `m_volume = volume >> VOLUME_ATTENNUATION_LOG2`,
and `VOLUME_ATTENNUATION_LOG2 = 0` in the default configuration. -/
def Sampler.set_volume (s : Sampler) (volume : Int) : Sampler :=
  { s with m_volume := volume }

/-- The two sequential range checks at the top of
`Sampler::internal_set_period`: raise to `MIN_PERIOD`, cap at `MAX_PERIOD`. -/
def clamp_period (period : Nat) : Nat :=
  let p := if period < MIN_PERIOD then MIN_PERIOD else period
  if p > MAX_PERIOD then MAX_PERIOD else p

/-- `Sampler::internal_set_period`. -/
def Sampler.internal_set_period (s : Sampler) (period : Nat) : Sampler :=
  let period := clamp_period period
  if period = s.m_cached_period ∧ s.m_finetune = s.m_cached_finetune then
    s
  else
    let speed_constant := SPEED_TABLE s.m_finetune
    let speed := speed_constant / period % 65536
    { s with m_cached_period := period, m_cached_finetune := s.m_finetune,
             m_phase_increment := speed <<< 2 }

/-- `Sampler::set_period`. -/
def Sampler.set_period (s : Sampler) (period : Nat) : Sampler :=
  if s.m_active then s.internal_set_period period else s

/-- `Sampler::retrig` (hosted path). -/
def Sampler.retrig (s : Sampler) (sample : Option Sample) (period : Nat)
    (sample_offset : Nat) (volume : Int) : Sampler :=
  let s := Sampler.set_volume (Sampler.reset s) volume
  match sample with
  | none => s
  | some sm =>
    if sm.begin_ = sm.end_ then s
    else
      let s := { s with m_finetune := sm.finetune }
      let s := s.internal_set_period period
      let base := sm.begin_
      let e := sm.end_ - base
      let lb := sm.loop_begin - base
      let le := sm.loop_end - base
      let loopless : Bool := le - lb < MIN_LOOP_LENGTH
      let le := if loopless then lb + 1 else le
      let phase : Nat := 0
      let phase := if sample_offset ≠ 0 then
                     let p := phase + sample_offset * 256
                     if p > e then e else p
                   else phase
      { s with m_sample_base := base,
               m_loopless := loopless,
               m_phase := make_fixp 16 phase 0,
               m_end := make_fixp 16 e 0,
               m_loop_begin := make_fixp 16 lb 0,
               m_loop_end := make_fixp 16 le 0,
               m_active := true }

/-- `Sampler::fetch_sample` (hosted path).  `song` gives the byte at each
offset of the song buffer; the transient `m_sampling = true` window is not
observable sequentially. -/
def Sampler.fetch_sample (song : Nat → Nat) (s : Sampler) : Sampler :=
  if s.m_active = false then s
  else
    let sample := u8_to_s8 (song (s.m_sample_base + (s.m_phase >>> 16)))
    let s := { s with m_sample := s.m_volume * sample }
    let phase := s.m_phase + s.m_phase_increment
    if phase ≥ s.m_end then
      let phase := if s.m_loopless = false then phase + s.m_loop_begin - s.m_end
                   else s.m_loop_begin
      { s with m_phase := phase, m_end := s.m_loop_end }
    else
      { s with m_phase := phase }

/-- `Sampler::get_sample`. -/
def Sampler.get_sample (s : Sampler) : Int := s.m_sample

/-! ### Sampler invariants (claim C1) -/

/-- Structural invariant of an active sampler: the fixed-point bounds are
whole sample indices, and the loop region is long enough to absorb one
phase increment (`loop_begin + increment < loop_end` for looping voices,
`loop_begin < loop_end` for loopless ones). -/
def Sampler.Inv (s : Sampler) : Prop :=
  s.m_active = true →
    s.m_end % 65536 = 0 ∧ s.m_loop_begin % 65536 = 0 ∧ s.m_loop_end % 65536 = 0 ∧
    (s.m_loopless = true → s.m_loop_begin < s.m_loop_end) ∧
    (s.m_loopless = false → s.m_loop_begin + s.m_phase_increment < s.m_loop_end)

/-- The phase is strictly below the current end. -/
def Sampler.PhaseLt (s : Sampler) : Prop :=
  s.m_active = true → s.m_phase < s.m_end

/-- The phase is at most the current end (this weaker bound is all `retrig`
guarantees when a non-zero sample offset saturates). -/
def Sampler.PhaseLe (s : Sampler) : Prop :=
  s.m_active = true → s.m_phase ≤ s.m_end

/-- Steady state of a looping voice: the phase lies inside the loop region
and the end has been folded onto the loop end. -/
def Sampler.LoopInv (s : Sampler) : Prop :=
  s.m_active = true ∧ s.m_end = s.m_loop_end ∧
  s.m_loop_begin ≤ s.m_phase ∧ s.m_phase < s.m_loop_end

/-- A concrete all-zero sampler state (the state of a `Sampler` object after
zero-initialization plus `init()`). -/
def sampler0 : Sampler :=
  ⟨false, false, 0, 0, 0, 0, false, 0, 0, 0, 0, 0, 0, 0⟩

/-! ### Timer.hpp -/

structure Timer where
  m_counter : Nat
  m_period : Nat
  m_new_period : Nat
  m_load_new_period : Bool
  m_fire_counter : Nat
  m_fire_counter_last : Nat
deriving DecidableEq, Repr

/-- `Timer::reset`. -/
def Timer.reset (period : Nat) : Timer :=
  ⟨period, period, period, false, 0, 0⟩

/-- `Timer::get_period`. -/
def Timer.get_period (t : Timer) : Nat := t.m_new_period

/-- `Timer::set_period`: stage a new period.  The busy-wait on
`m_load_new_period` synchronizes with the interrupt and has no effect in
this sequential model. -/
def Timer.set_period (t : Timer) (new_period : Nat) : Timer :=
  { t with m_new_period := new_period, m_load_new_period := true }

/-- `Timer::clock` (called from the interrupt).  `m_counter` is a
`uint16_t`, `m_fire_counter` a `uint8_t`. -/
def Timer.clock (t : Timer) : Timer :=
  let t := if t.m_load_new_period then
             { t with m_period := t.m_new_period, m_counter := t.m_new_period,
                      m_load_new_period := false }
           else t
  let counter := (t.m_counter + 65535) % 65536
  if counter = 0 then
    { t with m_counter := t.m_period, m_fire_counter := (t.m_fire_counter + 1) % 256 }
  else
    { t with m_counter := counter }

/-- `Timer::is_fired`: returns the flag and the updated timer. -/
def Timer.is_fired (t : Timer) : Bool × Timer :=
  let counter := t.m_fire_counter
  if counter = t.m_fire_counter_last then (false, t)
  else (true, { t with m_fire_counter_last := counter })

/-! ### Channel.hpp: tables and the per-channel effect machine -/

/-- `internal::ARPEGGIO_TABLE` (fixed-point 0.16), entry k = shift of k+1
halftones. -/
def ARPEGGIO_TABLE (i : Nat) : Nat :=
  [61857, 58385, 55108, 52015, 49096, 46340, 43740, 41285, 38967, 36780,
   34716, 32768, 30928, 29192, 27554].getD i 0

def SINE_TABLE_LENGTH : Nat := 32
def SINE_TABLE_LENGTH_MASK : Nat := SINE_TABLE_LENGTH - 1
def OSC_PERIOD : Nat := SINE_TABLE_LENGTH * 2

def SINE_TABLE (i : Nat) : Nat :=
  [0, 24, 49, 74, 97, 120, 141, 161, 180, 197, 212,
   224, 235, 244, 250, 253, 255, 253, 250, 244, 235, 224,
   212, 197, 180, 161, 141, 120, 97, 74, 49, 24].getD i 0

/-- `static_cast<uint8_t>` applied to a signed value. -/
def u8_of_int (x : Int) : Nat := (x % 256).toNat

/-- `static_cast<uint16_t>` applied to a signed value. -/
def u16_of_int (x : Int) : Nat := (x % 65536).toNat

inductive ArpeggioEffect
  | ARPEGGIO_EFFECT_NONE
  | ARPEGGIO_EFFECT_ARPEGGIO
deriving DecidableEq, Repr

inductive VolumeEffect
  | VOLUME_EFFECT_NONE
  | VOLUME_EFFECT_INC
  | VOLUME_EFFECT_DEC
  | VOLUME_EFFECT_TREMOLO
deriving DecidableEq, Repr

inductive PeriodEffect
  | PERIOD_EFFECT_NONE
  | PERIOD_EFFECT_INC
  | PERIOD_EFFECT_DEC
  | PERIOD_EFFECT_PORTAMENTO
  | PERIOD_EFFECT_VIBRATO
deriving DecidableEq, Repr

inductive NoteEffect
  | NOTE_EFFECT_NONE
  | NOTE_EFFECT_REPEAT
  | NOTE_EFFECT_CUT
  | NOTE_EFFECT_DELAY
deriving DecidableEq, Repr

open ArpeggioEffect VolumeEffect PeriodEffect NoteEffect

/-- `Channel::Action` bit values (a `uint8_t` bitmask). -/
def ACTION_NONE : Nat := 0
def ACTION_UPDATE_VOLUME : Nat := 1
def ACTION_UPDATE_PERIOD : Nat := 2
def ACTION_USE_SAMPLE_OFFSET : Nat := 4
def ACTION_RETRIG : Nat := 8
def ACTION_USE_ARPEGGIO : Nat := 16
def ACTION_LOAD_SAMPLE : Nat := 32

/-- Clear the bits of `mask` in the byte-valued bitmask `a`
(C++ `a &= ~mask` on `uint8_t`). -/
def bit_clear (a mask : Nat) : Nat := a &&& (255 - mask)

structure TickState where
  actions : Nat
  period : Nat
  volume : Int
deriving DecidableEq, Repr

structure RowState where
  tick_counter : Nat
  delayed_actions : Nat
deriving DecidableEq, Repr

structure RowEffects where
  arpeggio_effect : ArpeggioEffect
  arpeggio_params0 : Nat
  arpeggio_params1 : Nat
  arpeggio_params2 : Nat
  volume_effect : VolumeEffect
  volume_param : Nat
  period_effect : PeriodEffect
  period_param : Nat
  note_effect : NoteEffect
  note_param : Nat
deriving DecidableEq, Repr

/-- `m_row_effects.arpeggio_params[i]`. -/
def RowEffects.arpeggio_param (re : RowEffects) (i : Nat) : Nat :=
  [re.arpeggio_params0, re.arpeggio_params1, re.arpeggio_params2].getD i 0

/-- `m_row_effects.reset()` (keeps the sticky parameter fields). -/
def RowEffects.reset (re : RowEffects) : RowEffects :=
  { re with arpeggio_effect := ARPEGGIO_EFFECT_NONE,
            note_effect := NOTE_EFFECT_NONE,
            period_effect := PERIOD_EFFECT_NONE,
            volume_effect := VOLUME_EFFECT_NONE }

structure ChanState where
  sample : Option Sample
  period : Nat
  volume : Int
  vibrato_pos : Int
  tremolo_pos : Int
deriving DecidableEq, Repr

structure ChanInput where
  sample : Option Sample
  period : Nat
  portamento_slide : Nat
  vibrato_speed : Nat
  vibrato_depth : Nat
  tremolo_speed : Nat
  tremolo_depth : Nat
  sample_offset : Nat
deriving DecidableEq, Repr

structure Channel where
  m_sampler : Sampler
  m_tick_state : TickState
  m_row_state : RowState
  m_row_effects : RowEffects
  m_state : ChanState
  m_input : ChanInput
deriving DecidableEq, Repr

/-- `Channel::reset_row`. -/
def Channel.reset_row (c : Channel) : Channel :=
  { c with m_row_state := ⟨0, 0⟩,
           m_row_effects := c.m_row_effects.reset,
           m_tick_state := { c.m_tick_state with actions := ACTION_NONE } }

/-- `Channel::init`. -/
def Channel.init (c : Channel) : Channel :=
  let c := { c with m_sampler := c.m_sampler.init }
  let c := c.reset_row
  { c with m_state := ⟨none, 0, 0, 0, 0⟩, m_input := ⟨none, 0, 0, 0, 0, 0, 0, 0⟩ }

/-- `Channel::reset`. -/
def Channel.reset (c : Channel) : Channel :=
  Channel.init { c with m_sampler := c.m_sampler.reset }

/-- `Channel::fetch_sample` (interrupt path). -/
def Channel.fetch_sample (song : Nat → Nat) (c : Channel) : Channel :=
  { c with m_sampler := c.m_sampler.fetch_sample song }

/-- `Channel::set_period`: a non-zero period is clamped, stored as the
portamento target and schedules a RETRIG. -/
def Channel.set_period (c : Channel) (period : Nat) : Channel :=
  if period ≠ 0 then
    let input_period := if period > MAX_PERIOD then MAX_PERIOD
                        else if period < MIN_PERIOD then MIN_PERIOD
                        else period
    { c with m_input := { c.m_input with period := input_period },
             m_tick_state := { c.m_tick_state with
                actions := c.m_tick_state.actions ||| ACTION_RETRIG } }
  else c

/-- `Channel::set_sample`: a non-null sample pointer is stored and schedules
LOAD_SAMPLE. -/
def Channel.set_sample (c : Channel) (sample : Option Sample) : Channel :=
  match sample with
  | some sm =>
    { c with m_input := { c.m_input with sample := some sm },
             m_tick_state := { c.m_tick_state with
                actions := c.m_tick_state.actions ||| ACTION_LOAD_SAMPLE } }
  | none => c

/-- `Channel::internal_load_sample`. -/
def Channel.internal_load_sample (c : Channel) : Channel :=
  if c.m_tick_state.actions &&& ACTION_LOAD_SAMPLE ≠ 0 then
    let vol := (c.m_input.sample.getD ⟨0, 0, 0, 0, 0, 0⟩).volume
    { c with m_state := { c.m_state with sample := c.m_input.sample, volume := vol },
             m_tick_state := { c.m_tick_state with
                volume := vol,
                actions := bit_clear c.m_tick_state.actions ACTION_LOAD_SAMPLE
                             ||| ACTION_UPDATE_VOLUME } }
  else c

/-- `Channel::set_volume`. -/
def Channel.set_volume (c : Channel) (volume : Nat) : Channel :=
  let c := c.internal_load_sample
  let v : Int := if volume > 64 then MAX_VOLUME else u8_to_s8 volume
  { c with m_state := { c.m_state with volume := v },
           m_tick_state := { c.m_tick_state with
              actions := c.m_tick_state.actions ||| ACTION_UPDATE_VOLUME } }

/-- `Channel::inc_volume`. -/
def Channel.inc_volume (c : Channel) (delta : Nat) : Channel :=
  let c := c.internal_load_sample
  let v : Int := if delta > u8_of_int (MAX_VOLUME - c.m_state.volume) then MAX_VOLUME
                 else c.m_state.volume + u8_to_s8 delta
  { c with m_state := { c.m_state with volume := v },
           m_tick_state := { c.m_tick_state with
              actions := c.m_tick_state.actions ||| ACTION_UPDATE_VOLUME } }

/-- `Channel::dec_volume`. -/
def Channel.dec_volume (c : Channel) (delta : Nat) : Channel :=
  let c := c.internal_load_sample
  let v : Int := if delta > u8_of_int c.m_state.volume then 0
                 else c.m_state.volume - u8_to_s8 delta
  { c with m_state := { c.m_state with volume := v },
           m_tick_state := { c.m_tick_state with
              actions := c.m_tick_state.actions ||| ACTION_UPDATE_VOLUME } }

/-- `Channel::use_volume_inc`. -/
def Channel.use_volume_inc (c : Channel) (delta : Nat) : Channel :=
  if delta ≠ 0 then
    { c with m_row_effects := { c.m_row_effects with
        volume_effect := VOLUME_EFFECT_INC, volume_param := delta } }
  else c

/-- `Channel::use_volume_dec`. -/
def Channel.use_volume_dec (c : Channel) (delta : Nat) : Channel :=
  if delta ≠ 0 then
    { c with m_row_effects := { c.m_row_effects with
        volume_effect := VOLUME_EFFECT_DEC, volume_param := delta } }
  else c

/-- `Channel::use_volume_tremolo`. -/
def Channel.use_volume_tremolo (c : Channel) (speed depth : Nat) : Channel :=
  let c := if speed ≠ 0 then
             { c with m_input := { c.m_input with tremolo_speed := speed } }
           else c
  let c := if depth ≠ 0 then
             { c with m_input := { c.m_input with tremolo_depth := depth } }
           else c
  { c with m_row_effects := { c.m_row_effects with
      volume_effect := VOLUME_EFFECT_TREMOLO } }

/-- `Channel::inc_period` (fine porta down, E2x). -/
def Channel.inc_period (c : Channel) (delta : Nat) : Channel :=
  let p := if c.m_state.period < MAX_PERIOD - delta then c.m_state.period + delta
           else MAX_PERIOD
  { c with m_state := { c.m_state with period := p },
           m_tick_state := { c.m_tick_state with
              actions := c.m_tick_state.actions ||| ACTION_UPDATE_PERIOD } }

/-- `Channel::dec_period` (fine porta up, E1x). -/
def Channel.dec_period (c : Channel) (delta : Nat) : Channel :=
  let p := if c.m_state.period > MIN_PERIOD + delta then c.m_state.period - delta
           else MIN_PERIOD
  { c with m_state := { c.m_state with period := p },
           m_tick_state := { c.m_tick_state with
              actions := c.m_tick_state.actions ||| ACTION_UPDATE_PERIOD } }

/-- `Channel::use_period_inc`. -/
def Channel.use_period_inc (c : Channel) (delta : Nat) : Channel :=
  { c with m_row_effects := { c.m_row_effects with
      period_effect := PERIOD_EFFECT_INC, period_param := delta } }

/-- `Channel::use_period_dec`. -/
def Channel.use_period_dec (c : Channel) (delta : Nat) : Channel :=
  { c with m_row_effects := { c.m_row_effects with
      period_effect := PERIOD_EFFECT_DEC, period_param := delta } }

/-- `Channel::use_period_portamento` (effect 3xx): sticky slide parameter,
selects the portamento period effect and clears any scheduled RETRIG. -/
def Channel.use_period_portamento (c : Channel) (slide : Nat) : Channel :=
  let c := if slide ≠ 0 then
             { c with m_input := { c.m_input with portamento_slide := slide } }
           else c
  { c with m_row_effects := { c.m_row_effects with
      period_effect := PERIOD_EFFECT_PORTAMENTO },
           m_tick_state := { c.m_tick_state with
      actions := bit_clear c.m_tick_state.actions ACTION_RETRIG } }

/-- `Channel::use_period_vibrato`. -/
def Channel.use_period_vibrato (c : Channel) (speed depth : Nat) : Channel :=
  let c := if speed ≠ 0 then
             { c with m_input := { c.m_input with vibrato_speed := speed } }
           else c
  let c := if depth ≠ 0 then
             { c with m_input := { c.m_input with vibrato_depth := depth } }
           else c
  { c with m_row_effects := { c.m_row_effects with
      period_effect := PERIOD_EFFECT_VIBRATO } }

/-- `Channel::set_sample_offset`. -/
def Channel.set_sample_offset (c : Channel) (offset : Nat) : Channel :=
  let c := if offset ≠ 0 then
             { c with m_input := { c.m_input with sample_offset := offset } }
           else c
  { c with m_tick_state := { c.m_tick_state with
      actions := c.m_tick_state.actions ||| ACTION_USE_SAMPLE_OFFSET } }

/-- `Channel::use_note_repeat` (E9x). -/
def Channel.use_note_repeat (c : Channel) (ticks : Nat) : Channel :=
  if ticks ≠ 0 then
    { c with m_row_effects := { c.m_row_effects with
        note_effect := NOTE_EFFECT_REPEAT, note_param := ticks },
             m_tick_state := { c.m_tick_state with
        actions := c.m_tick_state.actions ||| ACTION_RETRIG } }
  else c

/-- `Channel::use_note_cut` (ECx). -/
def Channel.use_note_cut (c : Channel) (ticks : Nat) : Channel :=
  if ticks ≠ 0 then
    { c with m_row_effects := { c.m_row_effects with
        note_effect := NOTE_EFFECT_CUT, note_param := ticks } }
  else
    { c with m_state := { c.m_state with volume := 0 },
             m_tick_state := { c.m_tick_state with
        actions := c.m_tick_state.actions ||| ACTION_UPDATE_VOLUME },
             m_row_effects := { c.m_row_effects with
        volume_effect := VOLUME_EFFECT_NONE } }

/-- `Channel::use_note_delay` (EDx). -/
def Channel.use_note_delay (c : Channel) (ticks : Nat) : Channel :=
  if ticks ≠ 0 then
    { c with m_row_effects := { c.m_row_effects with
        note_effect := NOTE_EFFECT_DELAY, note_param := ticks },
             m_row_state := { c.m_row_state with
        delayed_actions := c.m_tick_state.actions
                             &&& (ACTION_RETRIG ||| ACTION_LOAD_SAMPLE) },
             m_tick_state := { c.m_tick_state with
        actions := bit_clear c.m_tick_state.actions
                     (ACTION_RETRIG ||| ACTION_LOAD_SAMPLE) } }
  else c

/-- `Channel::use_arpeggio` (0xy). -/
def Channel.use_arpeggio (c : Channel) (note2 note3 : Nat) : Channel :=
  { c with m_row_effects := { c.m_row_effects with
      arpeggio_effect := ARPEGGIO_EFFECT_ARPEGGIO,
      arpeggio_params0 := 0, arpeggio_params1 := note2,
      arpeggio_params2 := note3 } }

/-- `Channel::internal_update_volume`. -/
def Channel.internal_update_volume (c : Channel) : Channel :=
  match c.m_row_effects.volume_effect with
  | VOLUME_EFFECT_DEC =>
    let v : Int := if u8_to_s8 c.m_row_effects.volume_param > c.m_state.volume then 0
                   else c.m_state.volume - u8_to_s8 c.m_row_effects.volume_param
    { c with m_state := { c.m_state with volume := v },
             m_tick_state := { c.m_tick_state with
                volume := v,
                actions := c.m_tick_state.actions ||| ACTION_UPDATE_VOLUME } }
  | VOLUME_EFFECT_INC =>
    let v : Int := if u8_to_s8 c.m_row_effects.volume_param
                      > MAX_VOLUME - c.m_state.volume then MAX_VOLUME
                   else c.m_state.volume + u8_to_s8 c.m_row_effects.volume_param
    { c with m_state := { c.m_state with volume := v },
             m_tick_state := { c.m_tick_state with
                volume := v,
                actions := c.m_tick_state.actions ||| ACTION_UPDATE_VOLUME } }
  | VOLUME_EFFECT_TREMOLO =>
    let index := (c.m_state.tremolo_pos % 32).toNat
    let delta := u8_to_s8 (SINE_TABLE index * c.m_input.tremolo_depth / 64)
    let v : Int :=
      if c.m_state.tremolo_pos ≥ 0 then
        (if c.m_state.volume + delta > MAX_VOLUME then MAX_VOLUME
         else c.m_state.volume + delta)
      else
        (if c.m_state.volume - delta < 0 then 0 else c.m_state.volume - delta)
    let pos := c.m_state.tremolo_pos + (c.m_input.tremolo_speed : Int)
    let pos := if pos ≥ (SINE_TABLE_LENGTH : Int) then pos - (OSC_PERIOD : Int) else pos
    { c with m_tick_state := { c.m_tick_state with
                volume := v,
                actions := c.m_tick_state.actions ||| ACTION_UPDATE_VOLUME },
             m_state := { c.m_state with tremolo_pos := pos } }
  | VOLUME_EFFECT_NONE => c

/-- `Channel::internal_update_note`. -/
def Channel.internal_update_note (c : Channel) : Channel :=
  match c.m_row_effects.note_effect with
  | NOTE_EFFECT_CUT =>
    if c.m_row_state.tick_counter = c.m_row_effects.note_param then
      { c with m_state := { c.m_state with volume := 0 },
               m_tick_state := { c.m_tick_state with
                  volume := 0,
                  actions := c.m_tick_state.actions ||| ACTION_UPDATE_VOLUME },
               m_row_effects := c.m_row_effects.reset }
    else c
  | NOTE_EFFECT_DELAY =>
    if c.m_row_state.tick_counter = c.m_row_effects.note_param then
      { c with m_tick_state := { c.m_tick_state with
                  actions := c.m_tick_state.actions ||| c.m_row_state.delayed_actions },
               m_row_effects := c.m_row_effects.reset }
    else c
  | NOTE_EFFECT_REPEAT =>
    if c.m_row_state.tick_counter % c.m_row_effects.note_param = 0 then
      { c with m_tick_state := { c.m_tick_state with
                  actions := c.m_tick_state.actions ||| ACTION_RETRIG } }
    else c
  | NOTE_EFFECT_NONE => c

/-- `Channel::internal_update_period`. -/
def Channel.internal_update_period (c : Channel) : Channel :=
  let c :=
    match c.m_row_effects.period_effect with
    | PERIOD_EFFECT_PORTAMENTO =>
      if c.m_input.period ≠ 0 then
        let p :=
          if c.m_state.period > c.m_input.period then
            let p := if c.m_state.period ≥ c.m_input.portamento_slide
                     then c.m_state.period - c.m_input.portamento_slide
                     else 0
            if p < c.m_input.period then c.m_input.period else p
          else if c.m_state.period < c.m_input.period then
            let p := if c.m_state.period < MAX_PERIOD
                     then c.m_state.period + c.m_input.portamento_slide
                     else MAX_PERIOD
            if p > c.m_input.period then c.m_input.period else p
          else c.m_state.period
        { c with m_state := { c.m_state with period := p },
                 m_tick_state := { c.m_tick_state with
                    period := p,
                    actions := c.m_tick_state.actions ||| ACTION_UPDATE_PERIOD } }
      else c
    | PERIOD_EFFECT_DEC =>
      let p := if c.m_state.period ≥ c.m_row_effects.period_param
               then c.m_state.period - c.m_row_effects.period_param
               else 0
      let p := if p < MIN_PERIOD then MIN_PERIOD else p
      { c with m_state := { c.m_state with period := p },
               m_tick_state := { c.m_tick_state with
                  period := p,
                  actions := c.m_tick_state.actions ||| ACTION_UPDATE_PERIOD } }
    | PERIOD_EFFECT_INC =>
      let p := if c.m_state.period < MAX_PERIOD
               then c.m_state.period + c.m_row_effects.period_param
               else MAX_PERIOD
      { c with m_state := { c.m_state with period := p },
               m_tick_state := { c.m_tick_state with
                  period := p,
                  actions := c.m_tick_state.actions ||| ACTION_UPDATE_PERIOD } }
    | PERIOD_EFFECT_VIBRATO =>
      let index := (c.m_state.vibrato_pos % 32).toNat
      let delta := SINE_TABLE index * c.m_input.vibrato_depth / 128
      let p := if c.m_state.vibrato_pos ≥ 0
               then u16_of_int ((c.m_state.period : Int) + delta)
               else u16_of_int ((c.m_state.period : Int) - delta)
      let pos := c.m_state.vibrato_pos + (c.m_input.vibrato_speed : Int)
      let pos := if pos ≥ (SINE_TABLE_LENGTH : Int) then pos - (OSC_PERIOD : Int) else pos
      { c with m_tick_state := { c.m_tick_state with
                  period := p,
                  actions := c.m_tick_state.actions ||| ACTION_UPDATE_PERIOD },
               m_state := { c.m_state with vibrato_pos := pos } }
    | PERIOD_EFFECT_NONE => c
  if c.m_row_effects.arpeggio_effect = ARPEGGIO_EFFECT_ARPEGGIO then
    { c with m_tick_state := { c.m_tick_state with
        actions := c.m_tick_state.actions ||| ACTION_UPDATE_PERIOD
                     ||| ACTION_USE_ARPEGGIO } }
  else c

/-- `Channel::internal_perform_actions`. -/
def Channel.internal_perform_actions (c : Channel) : Channel :=
  let c := c.internal_load_sample
  if c.m_tick_state.actions &&& ACTION_RETRIG ≠ 0 then
    let c := { c with m_state := { c.m_state with
                 period := c.m_input.period, vibrato_pos := 0, tremolo_pos := 0 } }
    let offset := if c.m_tick_state.actions &&& ACTION_USE_SAMPLE_OFFSET ≠ 0
                  then c.m_input.sample_offset else 0
    { c with m_sampler :=
        c.m_sampler.retrig c.m_state.sample c.m_state.period offset c.m_state.volume }
  else
    let c := if c.m_tick_state.actions &&& ACTION_UPDATE_VOLUME ≠ 0 then
               { c with m_sampler := c.m_sampler.set_volume c.m_tick_state.volume }
             else c
    if c.m_tick_state.actions &&& ACTION_UPDATE_PERIOD ≠ 0 then
      let tick_period :=
        if c.m_tick_state.actions &&& ACTION_USE_ARPEGGIO ≠ 0 then
          let arpeggio_shift := c.m_row_effects.arpeggio_param
            (c.m_row_state.tick_counter % ARPEGGIO_PERIOD)
          if arpeggio_shift ≠ 0 then
            let multiplier := ARPEGGIO_TABLE (arpeggio_shift - 1)
            (c.m_tick_state.period * multiplier) >>> 16
          else c.m_tick_state.period
        else c.m_tick_state.period
      let tick_period := if tick_period < MIN_PERIOD then MIN_PERIOD
                         else if tick_period > MAX_PERIOD then MAX_PERIOD
                         else tick_period
      { c with m_tick_state := { c.m_tick_state with period := tick_period },
               m_sampler := c.m_sampler.set_period tick_period }
    else c

/-- `Channel::tick` (one tracker tick). -/
def Channel.tick (c : Channel) : Channel :=
  let c := { c with m_tick_state := { c.m_tick_state with
               period := c.m_state.period,
               volume := c.m_state.volume } }
  let c := if c.m_row_state.tick_counter ≠ 0 then
             ((c.internal_update_volume).internal_update_note).internal_update_period
           else c
  let c := c.internal_perform_actions
  { c with m_row_state := { c.m_row_state with
             tick_counter := c.m_row_state.tick_counter + 1 },
           m_tick_state := { c.m_tick_state with actions := ACTION_NONE } }

/-! ### Player.hpp: events, loading, row dispatch -/

/-- `events::Message`. -/
inductive Message
  | UNSUPPORTED_FORMAT
  | UNSUPPORTED_EFFECT
  | OUT_OF_RANGE_SAMPLE_BOUNDARIES
  | OUT_OF_RANGE_SAMPLE_FINETUNE
  | OUT_OF_RANGE_SAMPLE_VOLUME
  | OUT_OF_RANGE_SAMPLE_LOOP_LENGTH
  | OUT_OF_RANGE_SAMPLE
  | OUT_OF_RANGE_PERIOD
  | OUT_OF_RANGE_PATTERN
  | OUT_OF_RANGE_EFFECT_PARAM
  | SONG_SIZE_TOO_BIG
deriving DecidableEq, Repr

/-- `Player::Mode`. -/
inductive Mode
  | PLAY_SONG_ONCE
  | LOOP_SONG_ONCE
  | LOOP_SONG
  | LOOP_PATTERN
deriving DecidableEq, Repr

namespace Player

/-- `Player::Action` bit values. -/
def ACTION_JUMP_TO_ROW : Nat := 1
def ACTION_STOP : Nat := 2
def ACTION_JUMP_TO_ORDER : Nat := 4
def ACTION_PATTERN_BREAK : Nat := 8

/-- One sample-header parse step of `Player::load` (one iteration of the
sample loop).  `hdr` is the byte offset of the 30-byte `format::Sample`
header (name 22 bytes, then length hi/lo, finetune, volume, loop start
hi/lo, loop length hi/lo); `sd` is the current sample-data offset.
Returns the runtime sample, the emitted messages, the success flag, and
the sample-data offset for the next sample.  The byte counts `length`,
`loop_start` and `loop_length` are `uint16_t` values of
`make_word(hi, lo) * 2U`, so the doubling wraps modulo 2^16. -/
def load_one_sample (data : Nat → Nat) (size : Nat) (hdr sd : Nat) :
    Sample × List Message × Bool × Nat :=
  let length := make_word (data (hdr + 22)) (data (hdr + 23)) * 2 % 65536
  let sample_end := sd + length
  if 2 < length ∧ sample_end ≤ size then
    let finetune := data (hdr + 24)
    let msgs := if finetune > MAX_FINETUNE
                then [Message.OUT_OF_RANGE_SAMPLE_FINETUNE] else []
    let finetune := clamp finetune 0 MAX_FINETUNE
    let volume := data (hdr + 25)
    let msgs := msgs ++ (if volume > 64 then [Message.OUT_OF_RANGE_SAMPLE_VOLUME] else [])
    let volume := clamp volume 0 64
    let loop_start := make_word (data (hdr + 26)) (data (hdr + 27)) * 2 % 65536
    let loop_begin := sd + loop_start
    if size < loop_begin then
      (⟨sd, sample_end, loop_begin, 0, finetune, u8_to_s8 volume⟩,
       msgs ++ [Message.OUT_OF_RANGE_SAMPLE_BOUNDARIES], false, sd)
    else
      let loop_length := make_word (data (hdr + 28)) (data (hdr + 29)) * 2 % 65536
      let loop_end := loop_begin + loop_length
      if size < loop_end then
        (⟨sd, sample_end, loop_begin, loop_end, finetune, u8_to_s8 volume⟩,
         msgs ++ [Message.OUT_OF_RANGE_SAMPLE_BOUNDARIES], false, sd)
      else if loop_length < MIN_LOOP_LENGTH ∧ loop_start ≠ 0 then
        (⟨sd, sample_end, loop_begin, loop_end, finetune, u8_to_s8 volume⟩,
         msgs ++ [Message.OUT_OF_RANGE_SAMPLE_LOOP_LENGTH], false, sd)
      else
        (⟨sd, sample_end, loop_begin, loop_end, finetune, u8_to_s8 volume⟩,
         msgs, true, sample_end)
  else
    let msgs := if 2 < length then [Message.OUT_OF_RANGE_SAMPLE_BOUNDARIES] else []
    let volume := data (hdr + 25)
    let msgs := msgs ++ (if volume > 64 then [Message.OUT_OF_RANGE_SAMPLE_VOLUME] else [])
    let volume := clamp volume 0 64
    (⟨sd, sd, sd, sd, 0, u8_to_s8 volume⟩, msgs, true, sd)

/-- The sample loop of `Player::load`, starting at header offset `hdr` and
sample-data offset `sd`, for the given number of remaining samples.
Stops (with success flag `false`) at the first rejected sample, as the
source returns from `load` there. -/
def load_samples (data : Nat → Nat) (size : Nat) :
    Nat → Nat → Nat → List Sample × List Message × Bool
  | _, _, 0 => ([], [], true)
  | hdr, sd, n + 1 =>
    let (smp, msgs, ok, sd2) := load_one_sample data size hdr sd
    if ok then
      let (rest, msgs2, ok2) := load_samples data size (hdr + 30) sd2 n
      (smp :: rest, msgs ++ msgs2, ok2)
    else ([smp], msgs, false)

/-- The pattern-count scan of `Player::load`: one past the largest pattern
index in the 128-byte order list at offset 952. -/
def max_order (data : Nat → Nat) : Nat :=
  (List.range NUM_ORDERS).foldl
    (fun acc i => if data (952 + i) > acc then data (952 + i) else acc) 0

/-- `Player::load` (hosted): checks the format tag at offset 1080 and the
64 KiB size limit, computes `pattern_count = 1 + max(order list)`, places
the sample bodies after the `1084`-byte header and
`1024 * pattern_count` bytes of patterns, and parses the 31 sample
headers.  Returns the runtime sample table on success (`none` models
`load` returning `false`) plus all emitted messages.  The copies of the
song name/tag, the play-state initialization and the initial
`fetch_pattern/fetch_row` calls do not affect the sample table or the
return value and are not modelled. -/
def load (data : Nat → Nat) (size : Nat) : Option (List Sample) × List Message :=
  let supported :=
    (data 1080 = 77 ∧ data 1081 = 46 ∧ data 1082 = 75 ∧ data 1083 = 46) ∨
    (data 1080 = 52 ∧ data 1081 = 67 ∧ data 1082 = 72 ∧ data 1083 = 78) ∨
    (data 1080 = 70 ∧ data 1081 = 76 ∧ data 1082 = 84 ∧ data 1083 = 52)
  if ¬ supported then (none, [Message.UNSUPPORTED_FORMAT])
  else if size > 65535 then (none, [Message.SONG_SIZE_TOO_BIG])
  else
    let pattern_count := max_order data + 1
    let sample_data := 1084 + 1024 * pattern_count
    let (samples, msgs, ok) := load_samples data size 20 sample_data NUM_SAMPLES
    if ok then (some samples, msgs) else (none, msgs)

/-- `m_pattern_state[i]` of the Player. -/
structure PatternState where
  loop_start_row : Nat
  loop_counter : Nat
deriving DecidableEq, Repr

def PatternState.reset (_ : PatternState) : PatternState := ⟨0, 0⟩

/-- `m_row_actions` of the Player. -/
structure RowActionsState where
  actions : Nat
  jump_to_order : Nat
  jump_to_row : Nat
deriving DecidableEq, Repr

/-- `m_song_state` of the Player. -/
structure SongState where
  mode : Mode
  loop_counter : Nat
  order : Nat
  row : Nat
  ticks_per_row : Nat
deriving DecidableEq, Repr

/-- The slice of the Player's state read and written by the body of the
per-channel loop in `Player::fetch_row`: the pending row actions, this
channel's pattern-loop state, the current row (read by E6x), the
ticks-per-row and pattern-delay settings, the BPM statistic, the tick
timer and, read-only, the order count and the sample table. -/
structure PlayerRowCtx where
  m_row_actions : RowActionsState
  pattern_state : PatternState
  song_row : Nat
  ticks_per_row : Nat
  row_delay : Nat
  max_bpm : Nat
  tick_timer : Timer
  order_count : Nat
  m_samples : List Sample
deriving DecidableEq, Repr

/-- The effect-dispatch `switch` of `Player::fetch_row` for one cell:
given the decoded effect nibble and parameter byte, update the player
slice and the channel and collect the messages this switch emits. -/
def dispatch_effect (ctx : PlayerRowCtx) (channel : Channel)
    (effect param : Nat) : PlayerRowCtx × Channel × List Message :=
  match effect with
  | 0x0 =>
    if param ≠ 0 then
      (ctx, channel.use_arpeggio (hi_nibble param) (lo_nibble param), [])
    else (ctx, channel, [])
  | 0x1 => (ctx, channel.use_period_dec param, [])
  | 0x2 => (ctx, channel.use_period_inc param, [])
  | 0x3 => (ctx, channel.use_period_portamento param, [])
  | 0x4 => (ctx, channel.use_period_vibrato (hi_nibble param) (lo_nibble param), [])
  | 0x5 =>
    let channel := channel.use_volume_dec (lo_nibble param)
    let channel := channel.use_volume_inc (hi_nibble param)
    (ctx, channel.use_period_portamento 0, [])
  | 0x6 =>
    let channel := channel.use_volume_dec (lo_nibble param)
    let channel := channel.use_volume_inc (hi_nibble param)
    (ctx, channel.use_period_vibrato 0 0, [])
  | 0x7 => (ctx, channel.use_volume_tremolo (hi_nibble param) (lo_nibble param), [])
  | 0x9 => (ctx, channel.set_sample_offset param, [])
  | 0xA =>
    let channel := channel.use_volume_dec (lo_nibble param)
    (ctx, channel.use_volume_inc (hi_nibble param), [])
  | 0xB =>
    let msgs := if param ≥ ctx.order_count then [Message.OUT_OF_RANGE_EFFECT_PARAM] else []
    ({ ctx with m_row_actions := { ctx.m_row_actions with
         actions := ctx.m_row_actions.actions ||| ACTION_JUMP_TO_ORDER,
         jump_to_order := param } }, channel, msgs)
  | 0xC => (ctx, channel.set_volume param, [])
  | 0xD =>
    let pos := hi_nibble param * 10 + lo_nibble param
    let msgs := if pos ≥ NUM_ROWS then [Message.OUT_OF_RANGE_EFFECT_PARAM] else []
    ({ ctx with m_row_actions := { ctx.m_row_actions with
         actions := ctx.m_row_actions.actions ||| ACTION_PATTERN_BREAK,
         jump_to_row := pos } }, channel, msgs)
  | 0xE =>
    let ext_effect := param &&& 0xf0
    let ext_param := lo_nibble param
    match ext_effect with
    | 0x10 => (ctx, channel.dec_period ext_param, [])
    | 0x20 => (ctx, channel.inc_period ext_param, [])
    | 0x60 =>
      if ext_param = 0 then
        ({ ctx with pattern_state := { ctx.pattern_state with
             loop_start_row := ctx.song_row } }, channel, [])
      else if ctx.pattern_state.loop_counter = 0 then
        ({ ctx with
             pattern_state := { ctx.pattern_state with loop_counter := ext_param },
             m_row_actions := { ctx.m_row_actions with
               actions := ctx.m_row_actions.actions ||| ACTION_JUMP_TO_ROW,
               jump_to_row := ctx.pattern_state.loop_start_row } }, channel, [])
      else if ctx.pattern_state.loop_counter - 1 ≠ 0 then
        ({ ctx with
             pattern_state := { ctx.pattern_state with
               loop_counter := ctx.pattern_state.loop_counter - 1 },
             m_row_actions := { ctx.m_row_actions with
               actions := ctx.m_row_actions.actions ||| ACTION_JUMP_TO_ROW,
               jump_to_row := ctx.pattern_state.loop_start_row } }, channel, [])
      else
        ({ ctx with pattern_state := { ctx.pattern_state with
             loop_counter := 0 } }, channel, [])
    | 0x90 => (ctx, channel.use_note_repeat ext_param, [])
    | 0xA0 => (ctx, channel.inc_volume ext_param, [])
    | 0xB0 => (ctx, channel.dec_volume ext_param, [])
    | 0xC0 => (ctx, channel.use_note_cut ext_param, [])
    | 0xD0 => (ctx, channel.use_note_delay ext_param, [])
    | 0xE0 => ({ ctx with row_delay := ext_param }, channel, [])
    | _ => (ctx, channel, [Message.UNSUPPORTED_EFFECT])
  | 0xF =>
    if param = 0 then
      (ctx, channel, [])  -- MOD8_OPTION_STOP_ON_F00_CMD is false by default
    else if param ≤ MAX_TICKS_PER_ROW then
      ({ ctx with ticks_per_row := param }, channel, [])
    else
      let tick_period := 5 * SAMPLING_FREQ / param / 2
      ({ ctx with max_bpm := maximum ctx.max_bpm param,
                  tick_timer := ctx.tick_timer.set_period tick_period }, channel, [])
  | _ => (ctx, channel, [Message.UNSUPPORTED_EFFECT])

/-- The body of the per-channel loop of `Player::fetch_row` for one 4-byte
pattern cell: decode the cell, select the sample and period, and dispatch
the effect via `dispatch_effect`.  Returns the updated player slice, the
updated channel and the emitted messages (in order). -/
def fetch_row_cell (ctx : PlayerRowCtx) (channel : Channel)
    (byte1 byte2 byte3 byte4 : Nat) : PlayerRowCtx × Channel × List Message :=
  let sample := (byte1 &&& 0xf0) ||| (byte3 >>> 4)
  let period := ((byte1 &&& 0xf) <<< 8) ||| byte2
  let effect := byte3 &&& 0xf
  let param := byte4
  let channel := channel.reset_row
  let (channel, msgs) :=
    if sample = 0 then (channel.set_sample none, [])
    else if sample ≤ NUM_SAMPLES then
      (channel.set_sample (some ((ctx.m_samples).getD (sample - 1) ⟨0, 0, 0, 0, 0, 0⟩)),
       [])
    else (channel, [Message.OUT_OF_RANGE_SAMPLE])
  let msgs := msgs ++
    (if period ≠ 0 ∧ (period < MIN_PERIOD ∨ period > MAX_PERIOD)
     then [Message.OUT_OF_RANGE_PERIOD] else [])
  let channel := channel.set_period period
  let (ctx, channel, effect_msgs) := dispatch_effect ctx channel effect param
  (ctx, channel, msgs ++ effect_msgs)

/-- `Player::internal_fetch_next_row`, on the song-position slice of the
player state.  `none` models returning `false`.  `fetch_pattern` (which
only resolves the pattern pointer and emits events) and the trailing
`fetch_row` call (which dispatches the new row's effects into the
channels but does not touch the song position) are not modelled; the
returned `RowActionsState` is the cleared mask as it stands when
`fetch_row` begins. -/
def internal_fetch_next_row (order_count : Nat) (song : SongState)
    (pattern_state : List PatternState) (row_actions : RowActionsState) :
    Option (SongState × List PatternState × RowActionsState) :=
  if row_actions.actions &&& ACTION_STOP ≠ 0 then
    none
  else if row_actions.actions &&& ACTION_JUMP_TO_ROW ≠ 0 then
    some ({ song with row := row_actions.jump_to_row }, pattern_state,
          { row_actions with actions := 0 })
  else
    let song := { song with row := (song.row + 1) % 256 }
    if song.row = NUM_ROWS ∨
       row_actions.actions &&& (ACTION_PATTERN_BREAK ||| ACTION_JUMP_TO_ORDER) ≠ 0 then
      let step :=
        if song.mode ≠ Mode.LOOP_PATTERN then
          if row_actions.actions &&& ACTION_JUMP_TO_ORDER ≠ 0 then
            if row_actions.jump_to_order ≤ song.order then
              if song.mode = Mode.PLAY_SONG_ONCE then none
              else if song.mode = Mode.LOOP_SONG_ONCE then
                let old := song.loop_counter
                let song := { song with loop_counter := (song.loop_counter + 1) % 256 }
                if old = 1 then none
                else some { song with order := row_actions.jump_to_order }
              else some { song with order := row_actions.jump_to_order }
            else if row_actions.jump_to_order ≥ order_count then none
            else some { song with order := row_actions.jump_to_order }
          else
            let song := { song with order := (song.order + 1) % 256 }
            if song.order = order_count then
              let song := { song with order := 0 }
              if song.mode ≠ Mode.LOOP_SONG then none else some song
            else some song
        else some song
      match step with
      | none => none
      | some song =>
        let pattern_state := pattern_state.map PatternState.reset
        if row_actions.actions &&& ACTION_PATTERN_BREAK ≠ 0 then
          if row_actions.jump_to_row ≥ NUM_ROWS then none
          else some ({ song with row := row_actions.jump_to_row }, pattern_state,
                     { row_actions with actions := 0 })
        else
          some ({ song with row := 0 }, pattern_state, { row_actions with actions := 0 })
    else
      some (song, pattern_state, { row_actions with actions := 0 })

end Player

/-! ### Concrete fixtures used by counterexamples and witnesses -/

/-- An all-zero channel (the state after `Channel::init` on zeroed memory). -/
def channel0 : Channel :=
  ⟨sampler0, ⟨0, 0, 0⟩, ⟨0, 0⟩,
   ⟨ArpeggioEffect.ARPEGGIO_EFFECT_NONE, 0, 0, 0,
    VolumeEffect.VOLUME_EFFECT_NONE, 0,
    PeriodEffect.PERIOD_EFFECT_NONE, 0,
    NoteEffect.NOTE_EFFECT_NONE, 0⟩,
   ⟨none, 0, 0, 0, 0⟩, ⟨none, 0, 0, 0, 0, 0, 0, 0⟩⟩

/-- A freshly loaded player-row context: no pending actions, 6 ticks per
row, tick timer at the VBLANK default, one order, no samples. -/
def ctx0 : Player.PlayerRowCtx :=
  ⟨⟨0, 0, 0⟩, ⟨0, 0⟩, 0, 6, 0, 125, Timer.reset 625, 1, []⟩

/-- A minimal `M.K.` MOD image, 2120 bytes: song length 1, all orders 0
(one pattern), sample 1 of length 2 words = 4 bytes with loop length
4 words = 8 bytes, every other sample empty.  Sample 1's loop region ends
8 bytes after its start while the sample itself is only 4 bytes long, yet
both lie inside the file. -/
def cexData : Nat → Nat := fun i =>
  if i = 1080 then 77 else if i = 1081 then 46
  else if i = 1082 then 75 else if i = 1083 then 46
  else if i = 950 then 1
  else if i = 43 then 2
  else if i = 49 then 4
  else 0

/-- A channel mid-portamento: current period 500 sliding toward target 428
by 14 units per tick. -/
def channelC6 : Channel :=
  { channel0 with
    m_row_effects := { channel0.m_row_effects with
                        period_effect := PeriodEffect.PERIOD_EFFECT_PORTAMENTO },
    m_state := { channel0.m_state with period := 500 },
    m_input := { channel0.m_input with period := 428, portamento_slide := 14 } }

/-- A song position playing the song once, at order 0 out of 2. -/
def songC5 : Player.SongState := ⟨Mode.PLAY_SONG_ONCE, 0, 0, 63, 6⟩

/-- A pending pattern break targeting row 34. -/
def raC5 : Player.RowActionsState := ⟨8, 0, 34⟩

/-! ### Sampler theorems -/

/-! ### Arithmetic facts about the speed table and phase increments -/

theorem speed_lt (f p : Nat) : SPEED_TABLE f / p % 65536 < 65536 :=
  Nat.mod_lt _ (by norm_num)

theorem speed_shift_le (f p : Nat) : (SPEED_TABLE f / p % 65536) <<< 2 ≤ 262140 := by
  have h := speed_lt f p
  rw [Nat.shiftLeft_eq]
  omega

theorem clamp_period_bounds (p : Nat) :
    MIN_PERIOD ≤ clamp_period p ∧ clamp_period p ≤ MAX_PERIOD := by
  simp only [clamp_period, MIN_PERIOD, MAX_PERIOD, DOWNSAMPLING_FACTOR]
  split <;> split <;> omega

theorem clamp_period_pos (p : Nat) : clamp_period p ≠ 0 := by
  have h := clamp_period_bounds p
  simp only [MIN_PERIOD, DOWNSAMPLING_FACTOR] at h
  omega

/-- For periods 30 and above the quotient `SPEED_TABLE[f] / p` fits in a
`uint16`, so the truncating cast is the identity there. -/
theorem speed_no_truncation (f p : Nat) (hf : f ≤ 15) (hp : 30 ≤ p) :
    SPEED_TABLE f / p % 65536 = SPEED_TABLE f / p := by
  have h30 : SPEED_TABLE f / 30 < 65536 := by interval_cases f <;> decide
  have hle : SPEED_TABLE f / p ≤ SPEED_TABLE f / 30 :=
    Nat.div_le_div_left hp (by norm_num)
  exact Nat.mod_eq_of_lt (by omega)

/-- For every finetune and every in-range (clamped) period, the computed
phase increment is positive. -/
theorem speed_pos (f p : Nat) (hf : f ≤ 15) (h1 : 28 ≤ p) (h2 : p ≤ 3424) :
    0 < SPEED_TABLE f / p % 65536 := by
  rcases Nat.lt_or_ge p 30 with hp | hp
  · interval_cases p <;> interval_cases f <;> decide
  · rw [speed_no_truncation f p hf hp]
    have hmin : SPEED_TABLE f / 3424 ≤ SPEED_TABLE f / p :=
      Nat.div_le_div_left h2 (by omega)
    have hpos : 0 < SPEED_TABLE f / 3424 := by interval_cases f <;> decide
    omega

theorem fetch_sample_inactive (song : Nat → Nat) (s : Sampler)
    (ha : s.m_active = false) : s.fetch_sample song = s := by
  unfold Sampler.fetch_sample
  rw [if_pos ha]

theorem fetch_sample_wrap_eq (song : Nat → Nat) (s : Sampler)
    (ha : s.m_active = true)
    (hw : s.m_phase + s.m_phase_increment ≥ s.m_end) :
    s.fetch_sample song =
      { s with
        m_sample := s.m_volume * u8_to_s8 (song (s.m_sample_base + (s.m_phase >>> 16))),
        m_phase := if s.m_loopless = false
                   then s.m_phase + s.m_phase_increment + s.m_loop_begin - s.m_end
                   else s.m_loop_begin,
        m_end := s.m_loop_end } := by
  unfold Sampler.fetch_sample
  rw [if_neg (by rw [ha]; exact fun h => nomatch h)]
  simp only [hw, if_true, ite_true]

theorem fetch_sample_nowrap_eq (song : Nat → Nat) (s : Sampler)
    (ha : s.m_active = true)
    (hw : ¬ (s.m_phase + s.m_phase_increment ≥ s.m_end)) :
    s.fetch_sample song =
      { s with
        m_sample := s.m_volume * u8_to_s8 (song (s.m_sample_base + (s.m_phase >>> 16))),
        m_phase := s.m_phase + s.m_phase_increment } := by
  unfold Sampler.fetch_sample
  rw [if_neg (by rw [ha]; exact fun h => nomatch h)]
  simp only [hw, if_false, ite_false]

theorem fetch_sample_fixed_fields (song : Nat → Nat) (s : Sampler) :
    (s.fetch_sample song).m_active = s.m_active ∧
    (s.fetch_sample song).m_loopless = s.m_loopless ∧
    (s.fetch_sample song).m_loop_begin = s.m_loop_begin ∧
    (s.fetch_sample song).m_loop_end = s.m_loop_end ∧
    (s.fetch_sample song).m_phase_increment = s.m_phase_increment := by
  by_cases ha : s.m_active = true
  · by_cases hw : s.m_phase + s.m_phase_increment ≥ s.m_end
    · rw [fetch_sample_wrap_eq song s ha hw]
      exact ⟨rfl, rfl, rfl, rfl, rfl⟩
    · rw [fetch_sample_nowrap_eq song s ha hw]
      exact ⟨rfl, rfl, rfl, rfl, rfl⟩
  · rw [fetch_sample_inactive song s (by revert ha; cases s.m_active <;> simp)]
    exact ⟨rfl, rfl, rfl, rfl, rfl⟩

theorem fetch_sample_preserves (song : Nat → Nat) (s : Sampler)
    (hI : s.Inv) (hle : s.PhaseLe) :
    (s.fetch_sample song).Inv ∧ (s.fetch_sample song).PhaseLt := by
  by_cases ha : s.m_active = true
  · obtain ⟨hm1, hm2, hm3, hlt, hlf⟩ := hI ha
    have hp := hle ha
    by_cases hw : s.m_phase + s.m_phase_increment ≥ s.m_end
    · rw [fetch_sample_wrap_eq song s ha hw]
      constructor
      · intro _
        dsimp only
        refine ⟨hm3, hm2, hm3, fun h => hlt h, fun h => ?_⟩
        have := hlf h
        omega
      · intro _
        dsimp only
        by_cases hll : s.m_loopless = false
        · rw [if_pos hll]
          have := hlf hll
          omega
        · rw [if_neg hll]
          exact hlt (by revert hll; cases s.m_loopless <;> simp)
    · rw [fetch_sample_nowrap_eq song s ha hw]
      refine ⟨fun _ => ⟨hm1, hm2, hm3, hlt, hlf⟩, fun _ => ?_⟩
      dsimp only
      omega
  · rw [fetch_sample_inactive song s (by revert ha; cases s.m_active <;> simp)]
    exact ⟨hI, fun h => absurd h ha⟩

/-- Specialization of `fetch_sample_wrap_eq` to a looping voice. -/
theorem fetch_sample_wrap_looping_eq (song : Nat → Nat) (s : Sampler)
    (ha : s.m_active = true) (hll : s.m_loopless = false)
    (hw : s.m_phase + s.m_phase_increment ≥ s.m_end) :
    s.fetch_sample song =
      { s with
        m_sample := s.m_volume * u8_to_s8 (song (s.m_sample_base + (s.m_phase >>> 16))),
        m_phase := s.m_phase + s.m_phase_increment + s.m_loop_begin - s.m_end,
        m_end := s.m_loop_end } := by
  rw [fetch_sample_wrap_eq song s ha hw]
  simp only [hll, eq_self_iff_true, if_true]

/-- A `fetch_sample` call that crosses the current end folds the phase into
the loop region and enters the loop steady state. -/
theorem fetch_sample_wrap_loopinv (song : Nat → Nat) (s : Sampler)
    (hI : s.Inv) (ha : s.m_active = true) (hll : s.m_loopless = false)
    (hple : s.m_phase ≤ s.m_end)
    (hw : s.m_end ≤ s.m_phase + s.m_phase_increment) :
    (s.fetch_sample song).LoopInv ∧ (s.fetch_sample song).Inv ∧
    (s.fetch_sample song).m_loopless = false := by
  obtain ⟨hm1, hm2, hm3, _, hlf⟩ := hI ha
  have h5 := hlf hll
  have hIP := fetch_sample_preserves song s hI (fun _ => hple)
  refine ⟨?_, hIP.1, ?_⟩
  · rw [fetch_sample_wrap_looping_eq song s ha hll (by omega)]
    refine ⟨?_, ?_, ?_, ?_⟩ <;> dsimp only
    · exact ha
    · omega
    · omega
  · rw [(fetch_sample_fixed_fields song s).2.1, hll]

/-- Keeping looping: the loop steady state is preserved by `fetch_sample`. -/
theorem fetch_sample_loopinv (song : Nat → Nat) (s : Sampler)
    (hI : s.Inv) (hL : s.LoopInv) (hll : s.m_loopless = false) :
    (s.fetch_sample song).LoopInv ∧ (s.fetch_sample song).Inv ∧
    (s.fetch_sample song).m_loopless = false := by
  obtain ⟨ha, hend, hlb, hlt⟩ := hL
  by_cases hw : s.m_phase + s.m_phase_increment ≥ s.m_end
  · have h := fetch_sample_wrap_loopinv song s hI ha hll (by omega) hw
    obtain ⟨⟨h1, h2, h3, h4⟩, h5, h6⟩ := h
    refine ⟨⟨h1, h2, h3, h4⟩, h5, h6⟩
  · have hIP := fetch_sample_preserves song s hI (fun _ => by omega)
    refine ⟨?_, hIP.1, ?_⟩
    · rw [fetch_sample_nowrap_eq song s ha hw]
      refine ⟨ha, hend, ?_, ?_⟩ <;> dsimp only <;> omega
    · rw [(fetch_sample_fixed_fields song s).2.1, hll]

/-- From any in-bounds state of an active looping voice, enough
`fetch_sample` calls reach the loop steady state (`k` bounds the number of
whole increments still missing before the first wrap). -/
theorem fetch_sample_reaches_loop (song : Nat → Nat) :
    ∀ (k : Nat) (s : Sampler), s.Inv → s.m_active = true → s.m_loopless = false →
      s.m_phase ≤ s.m_end →
      s.m_end ≤ s.m_phase + (k + 1) * s.m_phase_increment →
      ∃ n, ((Sampler.fetch_sample song)^[n] s).LoopInv ∧
        ((Sampler.fetch_sample song)^[n] s).Inv ∧
        ((Sampler.fetch_sample song)^[n] s).m_loopless = false := by
  intro k
  induction k with
  | zero =>
    intro s hI ha hll hple hb
    refine ⟨1, ?_⟩
    simp only [Function.iterate_one]
    exact fetch_sample_wrap_loopinv song s hI ha hll hple (by omega)
  | succ k ih =>
    intro s hI ha hll hple hb
    by_cases hw : s.m_end ≤ s.m_phase + s.m_phase_increment
    · refine ⟨1, ?_⟩
      simp only [Function.iterate_one]
      exact fetch_sample_wrap_loopinv song s hI ha hll hple hw
    · have hIP := fetch_sample_preserves song s hI (fun _ => hple)
      have hfix := fetch_sample_fixed_fields song s
      have hphase : (s.fetch_sample song).m_phase = s.m_phase + s.m_phase_increment := by
        rw [fetch_sample_nowrap_eq song s ha (by omega)]
      have hend : (s.fetch_sample song).m_end = s.m_end := by
        rw [fetch_sample_nowrap_eq song s ha (by omega)]
      have hincr : (s.fetch_sample song).m_phase_increment = s.m_phase_increment :=
        hfix.2.2.2.2
      have hsplit : (k + 1 + 1) * s.m_phase_increment
          = s.m_phase_increment + (k + 1) * s.m_phase_increment := by ring
      obtain ⟨n, hn⟩ := ih (s.fetch_sample song) hIP.1
        (by rw [hfix.1]; exact ha)
        (by rw [hfix.2.1]; exact hll)
        (by rw [hphase, hend]; omega)
        (by rw [hphase, hend, hincr]; omega)
      refine ⟨n + 1, ?_⟩
      rw [Function.iterate_succ_apply]
      exact hn

theorem internal_set_period_of_cache_empty (s : Sampler) (period : Nat)
    (h : s.m_cached_period = 0) :
    s.internal_set_period period =
      { s with m_cached_period := clamp_period period,
               m_cached_finetune := s.m_finetune,
               m_phase_increment :=
                 (SPEED_TABLE s.m_finetune / clamp_period period % 65536) <<< 2 } := by
  have hc : ¬(clamp_period period = s.m_cached_period ∧
      s.m_finetune = s.m_cached_finetune) :=
    fun hx => clamp_period_pos period (hx.1.trans h)
  simp only [Sampler.internal_set_period, hc, if_false, ite_false]

/-- Explicit form of `Sampler::retrig` on a non-empty sample. -/
theorem retrig_some_eq (s : Sampler) (sm : Sample) (period sample_offset : Nat)
    (vol : Int) (hne : ¬ sm.begin_ = sm.end_) :
    s.retrig (some sm) period sample_offset vol =
      { m_active := true,
        m_sampling := false,
        m_finetune := sm.finetune,
        m_volume := vol,
        m_cached_period := clamp_period period,
        m_cached_finetune := sm.finetune,
        m_loopless := decide ((sm.loop_end - sm.begin_) - (sm.loop_begin - sm.begin_)
                              < MIN_LOOP_LENGTH),
        m_sample_base := sm.begin_,
        m_end := make_fixp 16 (sm.end_ - sm.begin_) 0,
        m_loop_begin := make_fixp 16 (sm.loop_begin - sm.begin_) 0,
        m_loop_end := make_fixp 16
          (if decide ((sm.loop_end - sm.begin_) - (sm.loop_begin - sm.begin_)
                      < MIN_LOOP_LENGTH) = true
           then (sm.loop_begin - sm.begin_) + 1
           else sm.loop_end - sm.begin_) 0,
        m_phase := make_fixp 16
          (if sample_offset ≠ 0 then
             (if 0 + sample_offset * 256 > sm.end_ - sm.begin_
              then sm.end_ - sm.begin_
              else 0 + sample_offset * 256)
           else 0) 0,
        m_phase_increment :=
          (SPEED_TABLE sm.finetune / clamp_period period % 65536) <<< 2,
        m_sample := 0 } := by
  simp only [Sampler.retrig, hne, if_false, ite_false]
  rw [internal_set_period_of_cache_empty _ _ rfl]
  simp only [Sampler.reset, Sampler.init, Sampler.set_volume]

/-- `Sampler::retrig` on a null sample only resets and stores the volume. -/
theorem retrig_none_eq (s : Sampler) (period sample_offset : Nat) (vol : Int) :
    s.retrig none period sample_offset vol =
      Sampler.set_volume (Sampler.reset s) vol := by
  simp only [Sampler.retrig]

/-- `Sampler::retrig` on an empty sample (`begin == end`) only resets and
stores the volume. -/
theorem retrig_empty_eq (s : Sampler) (sm : Sample) (period sample_offset : Nat)
    (vol : Int) (he : sm.begin_ = sm.end_) :
    s.retrig (some sm) period sample_offset vol =
      Sampler.set_volume (Sampler.reset s) vol := by
  simp only [Sampler.retrig, he, if_true, ite_true]

theorem MIN_LOOP_LENGTH_eq : MIN_LOOP_LENGTH = 5 := by decide

theorem make_fixp16_eq (x : Nat) : make_fixp 16 x 0 = x * 65536 := by
  simp [make_fixp, Nat.shiftLeft_eq]

theorem shiftRight16_le_shiftRight16 (a b : Nat) (h : a ≤ b) :
    a >>> 16 ≤ b >>> 16 := by
  simp only [Nat.shiftRight_eq_div_pow]
  exact Nat.div_le_div_right h

theorem shiftRight16_lt_shiftRight16 (a b : Nat) (hb : b % 65536 = 0)
    (h : a < b) : a >>> 16 < b >>> 16 := by
  simp only [Nat.shiftRight_eq_div_pow]
  have h65536 : (2 : Nat) ^ 16 = 65536 := by norm_num
  rw [h65536]
  omega

/-- `retrig` on a well-formed non-empty sample arms the voice with the
structural invariant, with `phase ≤ end` in general and `phase < end`
whenever the sample offset does not saturate. -/
theorem retrig_establishes_inv (s : Sampler) (sm : Sample)
    (period sample_offset : Nat) (vol : Int) (h3 : sm.begin_ ≤ sm.end_) :
    (s.retrig (some sm) period sample_offset vol).Inv ∧
    (s.retrig (some sm) period sample_offset vol).PhaseLe ∧
    (sample_offset * 256 < sm.end_ - sm.begin_ ∨ sample_offset = 0 →
      (s.retrig (some sm) period sample_offset vol).PhaseLt) ∧
    (sm.finetune ≤ 15 →
      (s.retrig (some sm) period sample_offset vol).m_active = true →
      0 < (s.retrig (some sm) period sample_offset vol).m_phase_increment) := by
  by_cases hne : sm.begin_ = sm.end_
  · rw [retrig_empty_eq s sm period sample_offset vol hne]
    have hact : (Sampler.set_volume (Sampler.reset s) vol).m_active = false := rfl
    refine ⟨fun h => absurd h (by rw [hact]; exact fun h => nomatch h),
            fun h => absurd h (by rw [hact]; exact fun h => nomatch h),
            fun _ h => absurd h (by rw [hact]; exact fun h => nomatch h),
            fun _ h => absurd h (by rw [hact]; exact fun h => nomatch h)⟩
  · rw [retrig_some_eq s sm period sample_offset vol hne]
    have hincle := speed_shift_le sm.finetune (clamp_period period)
    have hbounds := clamp_period_bounds period
    simp only [MIN_PERIOD, MAX_PERIOD, DOWNSAMPLING_FACTOR] at hbounds
    refine ⟨?_, ?_, ?_, ?_⟩
    · intro _
      dsimp only
      simp only [make_fixp16_eq]
      refine ⟨by omega, by omega, by omega, ?_, ?_⟩
      · intro h
        rw [decide_eq_true_iff] at h
        rw [if_pos (by rw [decide_eq_true_iff]; exact h)]
        omega
      · intro h
        have hge : ¬ ((sm.loop_end - sm.begin_) - (sm.loop_begin - sm.begin_)
            < MIN_LOOP_LENGTH) := by
          intro hc
          rw [show (decide ((sm.loop_end - sm.begin_) - (sm.loop_begin - sm.begin_)
            < MIN_LOOP_LENGTH)) = true from decide_eq_true hc] at h
          exact nomatch h
        rw [if_neg (by rw [decide_eq_true_iff]; exact hge)]
        rw [MIN_LOOP_LENGTH_eq] at hge
        omega
    · intro _
      dsimp only
      simp only [make_fixp16_eq]
      split_ifs <;> omega
    · intro hsat _
      dsimp only
      simp only [make_fixp16_eq]
      split_ifs <;> omega
    · intro hf _
      dsimp only
      have hpos := speed_pos sm.finetune (clamp_period period) hf
        (by omega) (by omega)
      rw [Nat.shiftLeft_eq]
      omega

theorem iterate_fetch_loop_fields (song : Nat → Nat) :
    ∀ (m : Nat) (s : Sampler),
      ((Sampler.fetch_sample song)^[m] s).m_loop_begin = s.m_loop_begin ∧
      ((Sampler.fetch_sample song)^[m] s).m_loop_end = s.m_loop_end := by
  intro m
  induction m with
  | zero => exact fun s => ⟨rfl, rfl⟩
  | succ m ih =>
    intro s
    rw [Function.iterate_succ_apply]
    have hf := fetch_sample_fixed_fields song s
    exact ⟨(ih _).1.trans hf.2.2.1, (ih _).2.trans hf.2.2.2.1⟩

theorem iterate_fetch_loopinv (song : Nat → Nat) :
    ∀ (d : Nat) (s : Sampler), s.Inv → s.LoopInv → s.m_loopless = false →
      ((Sampler.fetch_sample song)^[d] s).LoopInv := by
  intro d
  induction d with
  | zero => exact fun s _ hL _ => hL
  | succ d ih =>
    intro s hI hL hll
    rw [Function.iterate_succ_apply]
    obtain ⟨h1, h2, h3⟩ := fetch_sample_loopinv song s hI hL hll
    exact ih _ h2 h1 h3

/-- C1, counterexample: `retrig` with a sample offset that saturates at the
sample end leaves the voice active with the integer part of the phase
EQUAL to `end`, violating `begin ≤ (phase >> 16) < end`.  Here the sample
is 10 bytes long and the offset is 1 unit = 256 bytes, so the phase
saturates at `end = 10`. -/
theorem C1_counterexample :
    (sampler0.retrig (some ⟨0, 10, 0, 10, 0, 64⟩) 428 1 64).m_active = true ∧
    ¬ ((sampler0.retrig (some ⟨0, 10, 0, 10, 0, 64⟩) 428 1 64).m_phase >>> 16
       < (sampler0.retrig (some ⟨0, 10, 0, 10, 0, 64⟩) 428 1 64).m_end >>> 16) := by
  decide

/-- C1 (amended).  For the hosted `Sampler`:
1. after `init()` the voice is inactive;
2. after `retrig` on a well-formed sample, if the voice is active then
   `begin ≤ (phase >> 16) ≤ end` holds, the structural invariant `Inv` and
   `phase ≤ end` hold, the strict bound `(phase >> 16) < end` holds whenever
   the sample offset does not saturate (`offset*256 < length` or
   `offset = 0`), and the phase increment is positive;
3. every `fetch_sample` call from a state satisfying `Inv` and
   `phase ≤ end` yields a state satisfying `Inv` with the strict bound
   `(phase >> 16) < (end >> 16)` when active (so the strict bound is
   restored even after a saturating retrig, and is preserved across loop
   wraps);
4. for an active looping voice with a positive increment, after
   sufficiently many `fetch_sample` calls the integer part of the phase
   stays in `[loop_begin >> 16, loop_end >> 16)` forever.
(`begin` is offset 0 in the sampler's base-relative coordinates, so the
lower bound is the trivial `0 ≤ phase`.) -/
theorem C1_sampler_phase_bounds :
    (∀ s : Sampler, (s.init).m_active = false) ∧
    (∀ (s : Sampler) (sm : Sample) (period sample_offset : Nat) (vol : Int),
      sm.begin_ ≤ sm.end_ → sm.finetune ≤ 15 →
      ((s.retrig (some sm) period sample_offset vol).m_active = true →
        ((s.retrig (some sm) period sample_offset vol).m_phase >>> 16
          ≤ (s.retrig (some sm) period sample_offset vol).m_end >>> 16) ∧
        (s.retrig (some sm) period sample_offset vol).Inv ∧
        (s.retrig (some sm) period sample_offset vol).PhaseLe ∧
        (sample_offset * 256 < sm.end_ - sm.begin_ ∨ sample_offset = 0 →
          (s.retrig (some sm) period sample_offset vol).m_phase >>> 16
            < (s.retrig (some sm) period sample_offset vol).m_end >>> 16) ∧
        0 < (s.retrig (some sm) period sample_offset vol).m_phase_increment)) ∧
    (∀ (song : Nat → Nat) (s : Sampler), s.Inv → s.PhaseLe →
      (s.fetch_sample song).Inv ∧
      ((s.fetch_sample song).m_active = true →
        (s.fetch_sample song).m_phase >>> 16
          < (s.fetch_sample song).m_end >>> 16)) ∧
    (∀ (song : Nat → Nat) (s : Sampler), s.Inv → s.PhaseLe →
      s.m_active = true → s.m_loopless = false → 0 < s.m_phase_increment →
      ∃ n, ∀ m, n ≤ m →
        s.m_loop_begin >>> 16
          ≤ ((Sampler.fetch_sample song)^[m] s).m_phase >>> 16 ∧
        ((Sampler.fetch_sample song)^[m] s).m_phase >>> 16
          < s.m_loop_end >>> 16) := by
  refine ⟨fun _ => rfl, ?_, ?_, ?_⟩
  · intro s sm period sample_offset vol h3 hf hact
    obtain ⟨hInv, hLe, hLt, hIncPos⟩ :=
      retrig_establishes_inv s sm period sample_offset vol h3
    refine ⟨shiftRight16_le_shiftRight16 _ _ (hLe hact), hInv, hLe, ?_, hIncPos hf hact⟩
    intro hsat
    obtain ⟨hm1, _, _, _, _⟩ := hInv hact
    exact shiftRight16_lt_shiftRight16 _ _ hm1 (hLt hsat hact)
  · intro song s hI hle
    obtain ⟨hI2, hLt2⟩ := fetch_sample_preserves song s hI hle
    refine ⟨hI2, fun hact => ?_⟩
    obtain ⟨hm1, _, _, _, _⟩ := hI2 hact
    exact shiftRight16_lt_shiftRight16 _ _ hm1 (hLt2 hact)
  · intro song s hI hle hact hll hinc
    obtain ⟨_, hm2, hm3, _, _⟩ := hI hact
    obtain ⟨n, hL, hnI, hnll⟩ :=
      fetch_sample_reaches_loop song s.m_end s hI hact hll (hle hact)
        (by nlinarith [hle hact])
    refine ⟨n, fun m hm => ?_⟩
    obtain ⟨d, rfl⟩ : ∃ d, m = d + n := ⟨m - n, by omega⟩
    have hLd : ((Sampler.fetch_sample song)^[d + n] s).LoopInv := by
      rw [Function.iterate_add_apply]
      exact iterate_fetch_loopinv song d _ hnI hL hnll
    obtain ⟨_, _, hlo, hhi⟩ := hLd
    have hfields := iterate_fetch_loop_fields song (d + n) s
    rw [hfields.1] at hlo
    rw [hfields.2] at hhi
    exact ⟨shiftRight16_le_shiftRight16 _ _ hlo,
           shiftRight16_lt_shiftRight16 _ _ hm3 hhi⟩

/-- Witness for C1: a concrete non-saturating retrig of a 10-byte sample
lands strictly inside the sample bounds. -/
theorem C1_witness :
    (sampler0.retrig (some ⟨0, 10, 0, 10, 0, 64⟩) 428 0 64).m_phase >>> 16
      < (sampler0.retrig (some ⟨0, 10, 0, 10, 0, 64⟩) 428 0 64).m_end >>> 16 :=
  ((C1_sampler_phase_bounds.2.1 sampler0 ⟨0, 10, 0, 10, 0, 64⟩ 428 0 64
    (by decide) (by decide)) (by decide)).2.2.2.1 (Or.inr rfl)

/-! ### Claim C8: retrig with a null or empty sample -/

/-- C8: `Sampler::retrig` with a null sample pointer, or with a sample whose
`begin` equals its `end`, stores the given volume (attenuation is a right
shift by `VOLUME_ATTENNUATION_LOG2 = 0`) but leaves the voice inactive, so
subsequent `fetch_sample` calls are no-ops and `get_sample` returns 0. -/
theorem C8_retrig_silent :
    (∀ (s : Sampler) (period sample_offset : Nat) (vol : Int),
      (s.retrig none period sample_offset vol).m_active = false ∧
      (s.retrig none period sample_offset vol).m_volume = vol ∧
      (∀ song, (s.retrig none period sample_offset vol).fetch_sample song
        = s.retrig none period sample_offset vol) ∧
      (s.retrig none period sample_offset vol).get_sample = 0) ∧
    (∀ (s : Sampler) (sm : Sample) (period sample_offset : Nat) (vol : Int),
      sm.begin_ = sm.end_ →
      (s.retrig (some sm) period sample_offset vol).m_active = false ∧
      (s.retrig (some sm) period sample_offset vol).m_volume = vol ∧
      (∀ song, (s.retrig (some sm) period sample_offset vol).fetch_sample song
        = s.retrig (some sm) period sample_offset vol) ∧
      (s.retrig (some sm) period sample_offset vol).get_sample = 0) := by
  constructor
  · intro s period sample_offset vol
    rw [retrig_none_eq]
    exact ⟨rfl, rfl, fun song => fetch_sample_inactive song _ rfl, rfl⟩
  · intro s sm period sample_offset vol he
    rw [retrig_empty_eq s sm period sample_offset vol he]
    exact ⟨rfl, rfl, fun song => fetch_sample_inactive song _ rfl, rfl⟩

/-- Witness for C8 at a concrete empty sample. -/
theorem C8_witness :
    (sampler0.retrig (some ⟨5, 5, 5, 5, 0, 64⟩) 428 0 33).m_active = false ∧
    (sampler0.retrig (some ⟨5, 5, 5, 5, 0, 64⟩) 428 0 33).get_sample = 0 := by
  have h := C8_retrig_silent.2 sampler0 ⟨5, 5, 5, 5, 0, 64⟩ 428 0 33 rfl
  exact ⟨h.1, h.2.2.2⟩

/-! ### Claim C7: speed table and phase increments -/

/-- C7, counterexample: the computed phase increment is NOT strictly
decreasing in the period.  At finetune 0, periods 3423 and 3424 (both in
`[MIN_PERIOD, MAX_PERIOD]`) yield the same increment, because the integer
quotient `SPEED_TABLE[0] / p` is 543 for both. -/
theorem C7_counterexample :
    ¬ (phase_increment 0 3423 > phase_increment 0 3424) := by decide

/-- C7 (amended).  The increment is only weakly decreasing, and the uint16
truncation of `SPEED_TABLE[f] / p` corrupts the smallest periods:
1. for every finetune `f ≤ 15` and periods `30 ≤ p1 < p2 ≤ MAX_PERIOD`
   (from 30 up no quotient overflows a `uint16`),
   `phase_increment f p1 ≥ phase_increment f p2`;
2. for every period `p ∈ [29, MAX_PERIOD]`,
   `phase_increment 0 p > phase_increment 8 p` (finetune 0 is faster than
   finetune 8, i.e. −100 cents); at `p = 28` this comparison also fails
   because the finetune-0 quotient is truncated. -/
theorem C7_speed_table_monotonicity :
    (∀ (f p1 p2 : Nat), f ≤ 15 → 30 ≤ p1 → p1 < p2 → p2 ≤ MAX_PERIOD →
      phase_increment f p2 ≤ phase_increment f p1) ∧
    (∀ p : Nat, 29 ≤ p → p ≤ MAX_PERIOD →
      phase_increment 8 p < phase_increment 0 p) := by
  constructor
  · intro f p1 p2 hf h30 hlt hmax
    unfold phase_increment
    rw [speed_no_truncation f p1 hf h30, speed_no_truncation f p2 hf (by omega),
        Nat.shiftLeft_eq, Nat.shiftLeft_eq]
    have hdiv : SPEED_TABLE f / p2 ≤ SPEED_TABLE f / p1 :=
      Nat.div_le_div_left (Nat.le_of_lt hlt) (by omega)
    omega
  · intro p h29 hmax
    simp only [MAX_PERIOD] at hmax
    unfold phase_increment
    have hA : SPEED_TABLE 0 / 29 < 65536 := by decide
    have hB : SPEED_TABLE 8 ≤ SPEED_TABLE 0 := by decide
    have h0le : SPEED_TABLE 0 / p ≤ SPEED_TABLE 0 / 29 :=
      Nat.div_le_div_left h29 (by norm_num)
    have h8le : SPEED_TABLE 8 / p ≤ SPEED_TABLE 0 / p := Nat.div_le_div_right hB
    have hstrict : SPEED_TABLE 8 / p < SPEED_TABLE 0 / p := by
      have hd : SPEED_TABLE 8 + 3424 ≤ SPEED_TABLE 0 := by decide
      have h1 : SPEED_TABLE 8 / p * p ≤ SPEED_TABLE 8 := Nat.div_mul_le_self _ _
      have h2 : SPEED_TABLE 8 / p + 1 ≤ SPEED_TABLE 0 / p := by
        rw [Nat.le_div_iff_mul_le (by omega)]
        have hsplit : (SPEED_TABLE 8 / p + 1) * p = SPEED_TABLE 8 / p * p + p := by
          ring
        omega
      omega
    rw [Nat.mod_eq_of_lt (by omega), Nat.mod_eq_of_lt (by omega),
        Nat.shiftLeft_eq, Nat.shiftLeft_eq]
    omega

/-- Witness for C7 at concrete periods. -/
theorem C7_witness :
    phase_increment 0 200 ≤ phase_increment 0 100 ∧
    phase_increment 8 428 < phase_increment 0 428 :=
  ⟨C7_speed_table_monotonicity.1 0 100 200 (by norm_num) (by norm_num)
     (by norm_num) (by norm_num [MAX_PERIOD]),
   C7_speed_table_monotonicity.2 428 (by norm_num) (by norm_num [MAX_PERIOD])⟩

/-! ### Claim C10: Timer fire accounting -/

/-- C10: missed timer fires are discarded, not queued.
1. One `clock()` call advances `m_fire_counter` by at most one step
   (mod 256), so between two `is_fired()` calls the counter may advance
   several steps, one per elapsed tick period;
2. if the counter equals the last observed value, `is_fired()` returns
   `false` and changes nothing;
3. if the counter differs from the last observed value — no matter how many
   fires were missed — `is_fired()` returns `true`, sets the last-observed
   counter to the CURRENT counter value (not to `last + 1`), and an
   immediately following `is_fired()` returns `false` until the next fire. -/
theorem C10_timer_fires_once :
    (∀ t : Timer, (t.clock).m_fire_counter = t.m_fire_counter ∨
       (t.clock).m_fire_counter = (t.m_fire_counter + 1) % 256) ∧
    (∀ t : Timer, t.m_fire_counter = t.m_fire_counter_last →
       (t.is_fired).1 = false ∧ (t.is_fired).2 = t) ∧
    (∀ t : Timer, t.m_fire_counter ≠ t.m_fire_counter_last →
       (t.is_fired).1 = true ∧
       (t.is_fired).2.m_fire_counter_last = t.m_fire_counter ∧
       (t.is_fired).2.m_fire_counter = t.m_fire_counter ∧
       ((t.is_fired).2.is_fired).1 = false) := by
  refine ⟨?_, ?_, ?_⟩
  · intro t
    unfold Timer.clock
    split <;> dsimp only <;> split
    · right; rfl
    · left; rfl
    · right; rfl
    · left; rfl
  · intro t h
    unfold Timer.is_fired
    rw [if_pos h]
    exact ⟨rfl, rfl⟩
  · intro t h
    unfold Timer.is_fired
    rw [if_neg h]
    refine ⟨rfl, rfl, rfl, ?_⟩
    dsimp only
    rw [if_pos rfl]

/-- Witness for C10: a timer whose fire counter ran three steps ahead of
the last observation reports exactly one fire. -/
theorem C10_witness :
    ((⟨625, 625, 625, false, 4, 1⟩ : Timer).is_fired).1 = true ∧
    ((⟨625, 625, 625, false, 4, 1⟩ : Timer).is_fired).2.m_fire_counter_last = 4 ∧
    (((⟨625, 625, 625, false, 4, 1⟩ : Timer).is_fired).2.is_fired).1 = false := by
  have h := C10_timer_fires_once.2.2 ⟨625, 625, 625, false, 4, 1⟩ (by decide)
  exact ⟨h.1, h.2.1, h.2.2.2⟩

/-! ### Claim C2: sample bounds established by `Player::load` -/

/-- Bounds guaranteed by one accepted sample-header parse step. -/
theorem load_one_sample_ok_bounds (data : Nat → Nat) (size hdr sd : Nat)
    (hok : (Player.load_one_sample data size hdr sd).2.2.1 = true) :
    (Player.load_one_sample data size hdr sd).1.begin_
      ≤ (Player.load_one_sample data size hdr sd).1.loop_begin ∧
    (Player.load_one_sample data size hdr sd).1.loop_begin
      ≤ (Player.load_one_sample data size hdr sd).1.loop_end ∧
    (Player.load_one_sample data size hdr sd).1.begin_
      ≤ (Player.load_one_sample data size hdr sd).1.end_ ∧
    ((Player.load_one_sample data size hdr sd).1.begin_
        < (Player.load_one_sample data size hdr sd).1.end_ →
      (Player.load_one_sample data size hdr sd).1.end_ ≤ size ∧
      (Player.load_one_sample data size hdr sd).1.loop_begin ≤ size ∧
      (Player.load_one_sample data size hdr sd).1.loop_end ≤ size) := by
  unfold Player.load_one_sample at hok ⊢
  dsimp only at hok ⊢
  split_ifs at hok ⊢ with h1 h2 h3 h4 <;> dsimp only at hok ⊢
  all_goals first
    | exact Bool.noConfusion hok
    | (refine ⟨by omega, by omega, by omega, fun _ => ⟨by omega, by omega, by omega⟩⟩)
    | (refine ⟨by omega, by omega, by omega, fun hlt => absurd hlt (by omega)⟩)

/-- Bounds guaranteed by the whole accepted sample loop. -/
theorem load_samples_ok_bounds (data : Nat → Nat) (size : Nat) :
    ∀ (n hdr sd : Nat),
      (Player.load_samples data size hdr sd n).2.2 = true →
      ∀ sm ∈ (Player.load_samples data size hdr sd n).1,
        sm.begin_ ≤ sm.loop_begin ∧ sm.loop_begin ≤ sm.loop_end ∧
        sm.begin_ ≤ sm.end_ ∧
        (sm.begin_ < sm.end_ →
          sm.end_ ≤ size ∧ sm.loop_begin ≤ size ∧ sm.loop_end ≤ size) := by
  intro n
  induction n with
  | zero =>
    intro hdr sd _ sm hmem
    exact absurd hmem (by simp [Player.load_samples])
  | succ n ih =>
    intro hdr sd hoks sm hmem
    have hbounds := load_one_sample_ok_bounds data size hdr sd
    simp only [Player.load_samples] at hoks hmem
    rcases hE : Player.load_one_sample data size hdr sd with ⟨smp, msgs, ok, sd2⟩
    rw [hE] at hoks hmem hbounds
    dsimp only at hoks hmem hbounds
    cases ok with
    | false => exact Bool.noConfusion hoks
    | true =>
      simp only [if_true, ite_true] at hoks hmem
      rcases List.mem_cons.mp hmem with hhead | htail
      · subst hhead
        exact hbounds rfl
      · exact ih (hdr + 30) sd2 hoks sm htail

set_option maxRecDepth 100000 in
/-- C2, counterexample: `Player::load` accepts a file in which sample 1's
loop region ends past the sample's own end (the code only checks loop
bounds against the END OF THE FILE, never against the sample end).  On
`cexData` (2120 bytes), load succeeds and sample 1 has
`end = 2112 < loop_end = 2116`. -/
theorem C2_counterexample :
    (Player.load cexData 2120).1.isSome = true ∧
    (((Player.load cexData 2120).1.getD []).headD ⟨0, 0, 0, 0, 0, 0⟩).end_
      < (((Player.load cexData 2120).1.getD []).headD ⟨0, 0, 0, 0, 0, 0⟩).loop_end := by
  decide

/-- C2 (amended).  After `Player::load` returns `true`:
1. every runtime sample satisfies `begin ≤ loop_begin`,
   `loop_begin ≤ loop_end` and `begin ≤ end`, and every non-empty sample
   (`begin < end`) additionally has `end`, `loop_begin` and `loop_end`
   within the caller's byte buffer — but NOT necessarily
   `loop_end ≤ end`;
2. whenever a sample body fits the file but its loop region (with the
   byte counts wrapped modulo 2^16 as the `uint16_t` header arithmetic
   computes them) would extend past the end of the file, the sample loop
   rejects the file and emits `OUT_OF_RANGE_SAMPLE_BOUNDARIES`;
3. when the format tag is accepted and the size limit holds, a rejection
   by the sample loop makes `load` return `false` with exactly the loop's
   messages. -/
theorem C2_load_sample_bounds :
    (∀ (data : Nat → Nat) (size : Nat) (samples : List Sample)
        (msgs : List Message),
      Player.load data size = (some samples, msgs) →
      ∀ sm ∈ samples,
        sm.begin_ ≤ sm.loop_begin ∧ sm.loop_begin ≤ sm.loop_end ∧
        sm.begin_ ≤ sm.end_ ∧
        (sm.begin_ < sm.end_ →
          sm.end_ ≤ size ∧ sm.loop_begin ≤ size ∧ sm.loop_end ≤ size)) ∧
    (∀ (data : Nat → Nat) (size hdr sd n : Nat),
      2 < make_word (data (hdr + 22)) (data (hdr + 23)) * 2 % 65536 →
      sd + make_word (data (hdr + 22)) (data (hdr + 23)) * 2 % 65536 ≤ size →
      size < sd + make_word (data (hdr + 26)) (data (hdr + 27)) * 2 % 65536
                + make_word (data (hdr + 28)) (data (hdr + 29)) * 2 % 65536 →
      (Player.load_samples data size hdr sd (n + 1)).2.2 = false ∧
      Message.OUT_OF_RANGE_SAMPLE_BOUNDARIES
        ∈ (Player.load_samples data size hdr sd (n + 1)).2.1) ∧
    (∀ (data : Nat → Nat) (size : Nat),
      ((data 1080 = 77 ∧ data 1081 = 46 ∧ data 1082 = 75 ∧ data 1083 = 46) ∨
       (data 1080 = 52 ∧ data 1081 = 67 ∧ data 1082 = 72 ∧ data 1083 = 78) ∨
       (data 1080 = 70 ∧ data 1081 = 76 ∧ data 1082 = 84 ∧ data 1083 = 52)) →
      size ≤ 65535 →
      (Player.load_samples data size 20
         (1084 + 1024 * (Player.max_order data + 1)) NUM_SAMPLES).2.2 = false →
      (Player.load data size).1 = none ∧
      (Player.load data size).2 =
        (Player.load_samples data size 20
           (1084 + 1024 * (Player.max_order data + 1)) NUM_SAMPLES).2.1) := by
  refine ⟨?_, ?_, ?_⟩
  · intro data size samples msgs heq sm hmem
    have hb := load_samples_ok_bounds data size NUM_SAMPLES 20
      (1084 + 1024 * (Player.max_order data + 1))
    unfold Player.load at heq
    dsimp only at heq
    split_ifs at heq with h1 h2 h3 <;>
      first
        | exact Option.noConfusion (congrArg Prod.fst heq)
        | (simp only [Prod.mk.injEq, Option.some.injEq] at heq
           rw [← heq.1] at hmem
           exact hb h3 sm hmem)
  · intro data size hdr sd n hlen hend hloop
    simp only [Player.load_samples]
    rcases hE : Player.load_one_sample data size hdr sd with ⟨smp, msgs, ok, sd2⟩
    have hfail : ok = false ∧ Message.OUT_OF_RANGE_SAMPLE_BOUNDARIES ∈ msgs := by
      unfold Player.load_one_sample at hE
      dsimp only at hE
      rw [if_pos ⟨hlen, hend⟩] at hE
      split_ifs at hE <;>
        (simp only [Prod.mk.injEq] at hE
         first
           | (obtain ⟨-, hmsgs, hok, -⟩ := hE
              exact ⟨hok.symm, by rw [← hmsgs]; simp⟩)
           | omega)
    rcases hfail with ⟨rfl, hmem⟩
    dsimp only
    simp only [Bool.false_eq_true, if_false, ite_false]
    exact ⟨by first | rfl | trivial, hmem⟩
  · intro data size hsup hsize hfail
    unfold Player.load
    dsimp only
    rw [if_neg (not_not_intro hsup), if_neg (by omega),
        if_neg (by rw [hfail]; exact fun h => Bool.noConfusion h)]
    exact ⟨rfl, rfl⟩

set_option maxRecDepth 100000 in
/-- Witness for C2: on the concrete accepted file, sample 1 satisfies the
amended bounds. -/
theorem C2_witness :
    (((Player.load cexData 2120).1.getD []).headD ⟨0, 0, 0, 0, 0, 0⟩).begin_
      ≤ (((Player.load cexData 2120).1.getD []).headD ⟨0, 0, 0, 0, 0, 0⟩).loop_begin ∧
    (((Player.load cexData 2120).1.getD []).headD ⟨0, 0, 0, 0, 0, 0⟩).loop_end
      ≤ 2120 := by
  have h := C2_load_sample_bounds.1 cexData 2120
    ((Player.load cexData 2120).1.getD []) (Player.load cexData 2120).2
    (by decide)
    (((Player.load cexData 2120).1.getD []).headD ⟨0, 0, 0, 0, 0, 0⟩)
    (by decide)
  exact ⟨h.1, (h.2.2.2 (by decide)).2.2⟩

/-! ### Claim C3: a note with effect 3xx does not retrigger -/

/-- `use_period_portamento` always leaves the RETRIG bit clear. -/
theorem use_period_portamento_actions (c : Channel) (slide : Nat) :
    (c.use_period_portamento slide).m_tick_state.actions &&& ACTION_RETRIG = 0 := by
  have n1 : (247 &&& 8 : Nat) = 0 := by decide
  by_cases hs : slide ≠ 0 <;>
    simp [Channel.use_period_portamento, bit_clear, ACTION_RETRIG, hs, Nat.and_assoc,
          n1, Nat.and_zero]

/-- A first tick (`tick_counter = 0`) whose pending action mask is empty or
only LOAD_SAMPLE never calls `Sampler::retrig` or `Sampler::set_period`:
the sampler's activity, phase and phase increment are unchanged. -/
theorem tick_keeps_sampler (c : Channel) (h0 : c.m_row_state.tick_counter = 0)
    (ha : c.m_tick_state.actions = 0 ∨ c.m_tick_state.actions = ACTION_LOAD_SAMPLE) :
    (c.tick).m_sampler.m_active = c.m_sampler.m_active ∧
    (c.tick).m_sampler.m_phase = c.m_sampler.m_phase ∧
    (c.tick).m_sampler.m_phase_increment = c.m_sampler.m_phase_increment := by
  have n1 : (32 &&& 32 : Nat) = 32 := by decide
  have n2 : (32 &&& 223 ||| 1 : Nat) = 1 := by decide
  have n3 : (1 &&& 8 : Nat) = 0 := by decide
  have n4 : (1 &&& 2 : Nat) = 0 := by decide
  have n5 : (1 &&& 1 : Nat) = 1 := by decide
  have n6 : (0 &&& 32 : Nat) = 0 := by decide
  have n7 : (0 &&& 8 : Nat) = 0 := by decide
  have n8 : (0 &&& 1 : Nat) = 0 := by decide
  have n9 : (0 &&& 2 : Nat) = 0 := by decide
  rcases ha with ha | ha <;>
    simp [Channel.tick, Channel.internal_perform_actions, Channel.internal_load_sample,
          Sampler.set_volume, ACTION_LOAD_SAMPLE, ACTION_RETRIG, ACTION_UPDATE_VOLUME,
          ACTION_UPDATE_PERIOD, ACTION_NONE, bit_clear, h0, ha,
          n1, n2, n3, n4, n5, n6, n7, n8, n9]

/-- C3: a cell with a non-zero period and effect 3xx (portamento to note)
leaves no RETRIG bit in the channel's pending action mask
(`use_period_portamento` clears the bit that `set_period` scheduled), and
the first `Channel::tick` of the row therefore does not re-arm the
Sampler: its activity, phase and phase increment are untouched. -/
theorem C3_portamento_no_retrig :
    ∀ (ctx : Player.PlayerRowCtx) (channel : Channel) (byte1 byte2 byte3 byte4 : Nat),
      ((byte1 &&& 0xf) <<< 8) ||| byte2 ≠ 0 →
      byte3 &&& 0xf = 3 →
      (Player.fetch_row_cell ctx channel byte1 byte2 byte3 byte4).2.1.m_tick_state.actions
          &&& ACTION_RETRIG = 0 ∧
      ((Player.fetch_row_cell ctx channel byte1 byte2 byte3
          byte4).2.1.tick.m_sampler.m_active = channel.m_sampler.m_active ∧
       (Player.fetch_row_cell ctx channel byte1 byte2 byte3
          byte4).2.1.tick.m_sampler.m_phase = channel.m_sampler.m_phase ∧
       (Player.fetch_row_cell ctx channel byte1 byte2 byte3
          byte4).2.1.tick.m_sampler.m_phase_increment
          = channel.m_sampler.m_phase_increment) := by
  intro ctx channel b1 b2 b3 b4 hper heff
  unfold Player.fetch_row_cell
  rw [heff]
  simp only [Player.dispatch_effect]
  constructor
  · apply use_period_portamento_actions
  · have hch : ∀ (base : Channel),
        base.m_row_state.tick_counter = 0 →
        (base.m_tick_state.actions = 0 ∨ base.m_tick_state.actions = ACTION_LOAD_SAMPLE) →
        base.m_sampler = channel.m_sampler →
        (((base.set_period (((b1 &&& 0xf) <<< 8) ||| b2)).use_period_portamento
            b4).tick.m_sampler.m_active = channel.m_sampler.m_active ∧
         ((base.set_period (((b1 &&& 0xf) <<< 8) ||| b2)).use_period_portamento
            b4).tick.m_sampler.m_phase = channel.m_sampler.m_phase ∧
         ((base.set_period (((b1 &&& 0xf) <<< 8) ||| b2)).use_period_portamento
            b4).tick.m_sampler.m_phase_increment
            = channel.m_sampler.m_phase_increment) := by
      intro base h0 hact hsam
      have hmid := Channel.set_period base (((b1 &&& 0xf) <<< 8) ||| b2)
      set c2 := (base.set_period (((b1 &&& 0xf) <<< 8) ||| b2)).use_period_portamento b4
        with hc2
      have hc2cnt : c2.m_row_state.tick_counter = 0 := by
        rw [hc2]
        by_cases hs : b4 ≠ 0 <;>
          simp [Channel.use_period_portamento, Channel.set_period, hper, hs, h0]
      have hc2act : c2.m_tick_state.actions = 0 ∨
          c2.m_tick_state.actions = ACTION_LOAD_SAMPLE := by
        have n1 : (0 ||| 8 : Nat) = 8 := by decide
        have n2 : (32 ||| 8 : Nat) = 40 := by decide
        have n3 : (8 &&& 247 : Nat) = 0 := by decide
        have n4 : (40 &&& 247 : Nat) = 32 := by decide
        rw [hc2]
        rcases hact with h | h <;>
          (by_cases hs : b4 ≠ 0 <;>
            simp [Channel.use_period_portamento, Channel.set_period, bit_clear,
                  ACTION_RETRIG, ACTION_LOAD_SAMPLE, hper, hs, h, n1, n2, n3, n4])
      have hc2sam : c2.m_sampler = channel.m_sampler := by
        rw [hc2]
        by_cases hs : b4 ≠ 0 <;>
          simp [Channel.use_period_portamento, Channel.set_period, hper, hs, hsam]
      have ht := tick_keeps_sampler c2 hc2cnt hc2act
      rw [hc2sam] at ht
      exact ht
    by_cases hs0 : (b1 &&& 0xf0) ||| (b3 >>> 4) = 0
    · rw [if_pos hs0]
      exact hch _ (by simp [Channel.set_sample, Channel.reset_row])
        (Or.inl (by simp [Channel.set_sample, Channel.reset_row, ACTION_NONE]))
        (by simp [Channel.set_sample, Channel.reset_row])
    · rw [if_neg hs0]
      by_cases hs31 : (b1 &&& 0xf0) ||| (b3 >>> 4) ≤ NUM_SAMPLES
      · rw [if_pos hs31]
        exact hch _ (by simp [Channel.set_sample, Channel.reset_row])
          (Or.inr (by simp [Channel.set_sample, Channel.reset_row, ACTION_NONE,
                            ACTION_LOAD_SAMPLE]))
          (by simp [Channel.set_sample, Channel.reset_row])
      · rw [if_neg hs31]
        exact hch _ (by simp [Channel.reset_row])
          (Or.inl (by simp [Channel.reset_row, ACTION_NONE]))
          (by simp [Channel.reset_row])

/-- Witness for C3 on a concrete cell: period 428 (`0x1AC`), effect 3,
parameter 4. -/
theorem C3_witness :
    (Player.fetch_row_cell ctx0 channel0 0x01 0xAC 0x03 0x04).2.1.m_tick_state.actions
        &&& ACTION_RETRIG = 0 ∧
    (Player.fetch_row_cell ctx0 channel0 0x01 0xAC 0x03
        0x04).2.1.tick.m_sampler.m_active = channel0.m_sampler.m_active := by
  have h := C3_portamento_no_retrig ctx0 channel0 0x01 0xAC 0x03 0x04
    (by decide) (by decide)
  exact ⟨h.1, h.2.1⟩

/-! ### Claim C9: sample index above 31 -/

/-- No effect dispatch changes the channel's selected sample pointer. -/
theorem dispatch_effect_keeps_input_sample (ctx : Player.PlayerRowCtx)
    (c : Channel) (effect param : Nat) :
    (Player.dispatch_effect ctx c effect param).2.1.m_input.sample
      = c.m_input.sample := by
  unfold Player.dispatch_effect
  split <;> (try dsimp only) <;> (try split) <;>
    (try simp only [Channel.use_arpeggio, Channel.use_period_dec, Channel.use_period_inc,
       Channel.use_period_portamento, Channel.use_period_vibrato, Channel.use_volume_dec,
       Channel.use_volume_inc, Channel.use_volume_tremolo, Channel.set_sample_offset,
       Channel.use_note_repeat, Channel.use_note_cut, Channel.use_note_delay,
       Channel.set_volume, Channel.inc_volume, Channel.dec_volume, Channel.inc_period,
       Channel.dec_period, Channel.internal_load_sample]) <;>
    first
      | rfl
      | (split_ifs <;> rfl)

/-- C9: when a cell's decoded sample index exceeds 31 (the field is built
from a full high-nibble byte and a low nibble, so it ranges up to 255),
the player emits `OUT_OF_RANGE_SAMPLE` and never calls `set_sample`: the
channel keeps its previously selected sample, and the rest of the cell is
processed exactly as if the sample field were zero — the player slice,
the channel, and the remaining messages coincide with those of the
sample-masked cell. -/
theorem C9_out_of_range_sample :
    ∀ (ctx : Player.PlayerRowCtx) (channel : Channel) (byte1 byte2 byte3 byte4 : Nat),
      (byte1 &&& 0xf0) ||| (byte3 >>> 4) > NUM_SAMPLES →
      (Player.fetch_row_cell ctx channel byte1 byte2 byte3 byte4).2.1.m_input.sample
          = channel.m_input.sample ∧
      Message.OUT_OF_RANGE_SAMPLE
          ∈ (Player.fetch_row_cell ctx channel byte1 byte2 byte3 byte4).2.2 ∧
      (Player.fetch_row_cell ctx channel byte1 byte2 byte3 byte4).1
          = (Player.fetch_row_cell ctx channel (byte1 &&& 0xf) byte2 (byte3 &&& 0xf)
              byte4).1 ∧
      (Player.fetch_row_cell ctx channel byte1 byte2 byte3 byte4).2.1
          = (Player.fetch_row_cell ctx channel (byte1 &&& 0xf) byte2 (byte3 &&& 0xf)
              byte4).2.1 ∧
      (Player.fetch_row_cell ctx channel byte1 byte2 byte3 byte4).2.2
          = Message.OUT_OF_RANGE_SAMPLE
              :: (Player.fetch_row_cell ctx channel (byte1 &&& 0xf) byte2 (byte3 &&& 0xf)
                   byte4).2.2 := by
  intro ctx channel b1 b2 b3 b4 hs
  have hnib : (15 &&& 240 : Nat) = 0 := by decide
  have hnib2 : (15 &&& 15 : Nat) = 15 := by decide
  have hm1 : (b1 &&& 0xf) &&& 0xf0 = 0 := by
    rw [Nat.and_assoc, hnib, Nat.and_zero]
  have hm2 : (b3 &&& 0xf) >>> 4 = 0 := by
    rw [Nat.shiftRight_eq_div_pow]
    exact Nat.div_eq_of_lt (by have := Nat.and_le_right (n := b3) (m := 0xf); omega)
  have hm0 : ((b1 &&& 0xf) &&& 0xf0) ||| ((b3 &&& 0xf) >>> 4) = 0 := by
    rw [hm1, hm2]
    rfl
  have hper_eq : (b1 &&& 0xf) &&& 0xf = b1 &&& 0xf := by
    rw [Nat.and_assoc, hnib2]
  have heff_eq : (b3 &&& 0xf) &&& 0xf = b3 &&& 0xf := by
    rw [Nat.and_assoc, hnib2]
  have hs0 : ¬ ((b1 &&& 0xf0) ||| (b3 >>> 4) = 0) := by
    simp only [NUM_SAMPLES] at hs
    omega
  have hs31 : ¬ ((b1 &&& 0xf0) ||| (b3 >>> 4) ≤ NUM_SAMPLES) := by omega
  unfold Player.fetch_row_cell
  dsimp only
  rw [if_neg hs0, if_neg hs31, if_pos hm0, hper_eq, heff_eq]
  simp only [Channel.set_sample]
  refine ⟨?_, ?_, ?_, ?_, ?_⟩
  · rw [dispatch_effect_keeps_input_sample]
    unfold Channel.set_period Channel.reset_row
    split_ifs <;> rfl
  · simp
  · trivial
  · trivial
  · simp

/-- Witness for C9: sample index 255 (`byte1 = 0xFF`, `byte3 = 0xF1`,
effect 1). -/
theorem C9_witness :
    (Player.fetch_row_cell ctx0 channel0 0xFF 0x00 0xF1 0x02).2.1.m_input.sample
        = channel0.m_input.sample ∧
    Message.OUT_OF_RANGE_SAMPLE
        ∈ (Player.fetch_row_cell ctx0 channel0 0xFF 0x00 0xF1 0x02).2.2 := by
  have h := C9_out_of_range_sample ctx0 channel0 0xFF 0x00 0xF1 0x02 (by decide)
  exact ⟨h.1, h.2.1⟩

/-- C6: on a portamento update with target period at most `MAX_PERIOD`, the
channel's current period moves toward `m_input.period` by exactly
`portamento_slide` units, stopping exactly at the target; a zero target
leaves the period unchanged. -/
theorem C6_portamento_slide (c : Channel)
    (heff : c.m_row_effects.period_effect = PeriodEffect.PERIOD_EFFECT_PORTAMENTO)
    (hmax : c.m_input.period ≤ MAX_PERIOD) :
    (c.internal_update_period).m_state.period =
      if c.m_input.period = 0 then c.m_state.period
      else if c.m_input.period < c.m_state.period then
        max (c.m_state.period - c.m_input.portamento_slide) c.m_input.period
      else if c.m_state.period < c.m_input.period then
        min (c.m_state.period + c.m_input.portamento_slide) c.m_input.period
      else c.m_state.period := by
  unfold Channel.internal_update_period
  rw [heff]
  dsimp only
  split <;> (try dsimp only) <;> split_ifs <;> (try dsimp only) <;> omega

/-- Witness for C6: period 500 sliding toward 428 by 14 gives 486. -/
theorem C6_witness :
    channelC6.m_row_effects.period_effect = PeriodEffect.PERIOD_EFFECT_PORTAMENTO ∧
    channelC6.m_input.period ≤ MAX_PERIOD ∧
    (channelC6.internal_update_period).m_state.period = 486 := by
  refine ⟨rfl, by decide, ?_⟩
  have h := C6_portamento_slide channelC6 rfl (by decide)
  rw [h]
  decide

/-- C4: dispatching effect `F` with a non-zero parameter: a parameter in
`[1, 31]` sets the ticks-per-row; a parameter above 31 stages a tick-timer
period of exactly `5 * SAMPLING_FREQ / (2 * param)` in integer arithmetic. -/
theorem C4_effect_f_tempo (ctx : Player.PlayerRowCtx) (channel : Channel)
    (param : Nat) (h1 : 1 ≤ param) :
    (param ≤ 31 →
      (Player.dispatch_effect ctx channel 0xF param).1.ticks_per_row = param) ∧
    (31 < param →
      (Player.dispatch_effect ctx channel 0xF param).1.tick_timer.m_new_period
          = 5 * SAMPLING_FREQ / (2 * param) ∧
      (Player.dispatch_effect ctx channel 0xF param).1.tick_timer.m_load_new_period
          = true) := by
  have h0 : ¬ param = 0 := by omega
  constructor
  · intro hle
    have hmax : param ≤ MAX_TICKS_PER_ROW := by
      simp only [MAX_TICKS_PER_ROW]; omega
    unfold Player.dispatch_effect
    dsimp only
    rw [if_neg h0, if_pos hmax]
  · intro hgt
    have hmax : ¬ param ≤ MAX_TICKS_PER_ROW := by
      simp only [MAX_TICKS_PER_ROW]; omega
    unfold Player.dispatch_effect
    dsimp only
    rw [if_neg h0, if_neg hmax]
    simp only [Timer.set_period]
    refine ⟨?_, trivial⟩
    rw [Nat.div_div_eq_div_mul, Nat.mul_comm param 2]

/-- Witness for C4: parameter 125 stages a tick-timer period of 625. -/
theorem C4_witness :
    1 ≤ 125 ∧
    (Player.dispatch_effect ctx0 channel0 0xF 125).1.tick_timer.m_new_period
        = 5 * SAMPLING_FREQ / (2 * 125) ∧
    5 * SAMPLING_FREQ / (2 * 125) = 625 := by
  refine ⟨by decide, ?_, by decide⟩
  exact ((C4_effect_f_tempo ctx0 channel0 125 (by decide)).2 (by decide)).1

/-- C5: effect `D` decodes its parameter byte in decimal
(`hi_nibble * 10 + lo_nibble`) and schedules a pattern break to that row;
on the next row fetch with only a pattern break pending, mode
`PLAY_SONG_ONCE` and the next order in range, a target row of `NUM_ROWS` or
more makes the fetch fail, and a smaller target advances to the next order
at exactly that row. -/
theorem C5_pattern_break (ctx : Player.PlayerRowCtx) (channel : Channel)
    (param order_count : Nat) (song : Player.SongState)
    (ps : List Player.PatternState) (ra : Player.RowActionsState)
    (hact : ra.actions = Player.ACTION_PATTERN_BREAK)
    (hmode : song.mode = Mode.PLAY_SONG_ONCE)
    (hord : (song.order + 1) % 256 ≠ order_count) :
    ((Player.dispatch_effect ctx channel 0xD param).1.m_row_actions.jump_to_row
        = hi_nibble param * 10 + lo_nibble param ∧
     (Player.dispatch_effect ctx channel 0xD param).1.m_row_actions.actions
        = ctx.m_row_actions.actions ||| Player.ACTION_PATTERN_BREAK) ∧
    (NUM_ROWS ≤ ra.jump_to_row →
       Player.internal_fetch_next_row order_count song ps ra = none) ∧
    (ra.jump_to_row < NUM_ROWS →
       Player.internal_fetch_next_row order_count song ps ra
         = some ({ song with
                     row := ra.jump_to_row,
                     order := (song.order + 1) % 256 },
                 ps.map Player.PatternState.reset,
                 { ra with actions := 0 })) := by
  have h1 : ¬ (Player.ACTION_PATTERN_BREAK &&& Player.ACTION_STOP ≠ 0) := by decide
  have h2 : ¬ (Player.ACTION_PATTERN_BREAK &&& Player.ACTION_JUMP_TO_ROW ≠ 0) := by
    decide
  have h3 : Player.ACTION_PATTERN_BREAK &&&
      (Player.ACTION_PATTERN_BREAK ||| Player.ACTION_JUMP_TO_ORDER) ≠ 0 := by decide
  have h4 : ¬ (Player.ACTION_PATTERN_BREAK &&& Player.ACTION_JUMP_TO_ORDER ≠ 0) := by
    decide
  have h5 : Player.ACTION_PATTERN_BREAK &&& Player.ACTION_PATTERN_BREAK ≠ 0 := by
    decide
  have hm : Mode.PLAY_SONG_ONCE ≠ Mode.LOOP_PATTERN := by decide
  refine ⟨⟨?_, ?_⟩, ?_, ?_⟩
  · unfold Player.dispatch_effect
    dsimp only
  · unfold Player.dispatch_effect
    dsimp only
  · intro hge
    unfold Player.internal_fetch_next_row
    rw [hact]
    dsimp only
    rw [if_neg h1, if_neg h2, if_pos (Or.inr h3), hmode]
    try dsimp only
    rw [if_pos hm, if_neg h4, if_neg hord]
    try dsimp only
    rw [if_pos h5, if_pos hge]
  · intro hlt
    unfold Player.internal_fetch_next_row
    rw [hact]
    dsimp only
    rw [if_neg h1, if_neg h2, if_pos (Or.inr h3), hmode]
    try dsimp only
    rw [if_pos hm, if_neg h4, if_neg hord]
    try dsimp only
    rw [if_pos h5, if_neg (by omega : ¬ ra.jump_to_row ≥ NUM_ROWS)]

/-- Witness for C5: effect `D34` targets row 34, and the next fetch jumps
there at order 1. -/
theorem C5_witness :
    raC5.actions = Player.ACTION_PATTERN_BREAK ∧
    songC5.mode = Mode.PLAY_SONG_ONCE ∧
    (songC5.order + 1) % 256 ≠ 2 ∧
    hi_nibble 0x34 * 10 + lo_nibble 0x34 = 34 ∧
    (Player.dispatch_effect ctx0 channel0 0xD 0x34).1.m_row_actions.jump_to_row = 34 ∧
    Player.internal_fetch_next_row 2 songC5 [] raC5
      = some (⟨Mode.PLAY_SONG_ONCE, 0, 1, 34, 6⟩, [], ⟨0, 0, 34⟩) := by
  refine ⟨rfl, rfl, by decide, by decide, ?_, ?_⟩
  · have h := C5_pattern_break ctx0 channel0 0x34 2 songC5 [] raC5 rfl rfl (by decide)
    rw [h.1.1]
    decide
  · have h := (C5_pattern_break ctx0 channel0 0x34 2 songC5 [] raC5 rfl rfl
        (by decide)).2.2 (by decide)
    rw [h]
    rfl

end Mod8
